import Mathlib

/-!
Verification development for the Spacedrive sync backfill engine and two
utility types.

The definitions below are a shallow embedding of the Rust sources:

- core/crates/sync/src/backfill.rs   (pagination and backfill)
- core/src/util/maybe_undefined.rs   (MaybeUndefined serde round trip)
- crates/crypto/src/protected.rs     (Protected debug redaction)

Database tables are modelled as lists of row records kept in primary-key
order (the order in which the store returns them when asked to sort
ascending), fetches as pure functions computing exactly the rows the
corresponding Prisma query returns, and the operation log as a list of
operation records appended to in program order.  Fallible effects that the
claims do not depend on (storage failures, serialization failures) are
modelled as always succeeding.
-/

set_option maxRecDepth 8192

namespace Spacedrive

/-! ### MaybeUndefined (core/src/util/maybe_undefined.rs) -/

/-- Embedding of the Rust enum MaybeUndefined with variants Undefined,
Null and Value. -/
inductive MaybeUndefined (T : Type) where
  | undefined
  | null
  | value (v : T)
deriving DecidableEq, Repr

/-- Embedding of the Serialize impl for MaybeUndefined: Value(v) serializes
the inner value, every other variant serializes to none.  The wire format of
a value of type T that serializes itself is modelled as T. -/
def MaybeUndefined.serialize {T : Type} : MaybeUndefined T → Option T
  | .value v => some v
  | _ => none

/-- Embedding of the Deserialize impl for MaybeUndefined: an optional value
is deserialized and some maps to Value, none maps to Null. -/
def MaybeUndefined.deserialize {T : Type} : Option T → MaybeUndefined T
  | some v => .value v
  | none => .null

/-! ### Protected (crates/crypto/src/protected.rs) -/

/-- Embedding of the Rust struct Protected, a newtype wrapper around a
secret value. -/
structure Protected (T : Type) where
  inner : T

/-- Embedding of Protected::new. -/
def Protected.new {T : Type} (value : T) : Protected T := ⟨value⟩

/-- Embedding of Protected::expose. -/
def Protected.expose {T : Type} (p : Protected T) : T := p.inner

/-- Embedding of the Debug impl for Protected: fmt ignores the wrapped
value and writes the fixed string to the formatter. -/
def Protected.debugFmt {T : Type} (_ : Protected T) : String := "[REDACTED]"

/-! ### Sync identities, values and entries (backfill.rs and its
collaborators)

The sync identity structures prisma_sync::*::SyncId are generated code;
their shapes are read off the uses in backfill.rs: every entity is
identified by its pub_id except labels (identified by name), EXIF data
(identified by the owning object identity) and the two relation tables
(identified by the pair of sides).  A pub_id (a byte vector UUID in Rust)
is modelled as a natural number. -/

/-- Sync identity of a row, one constructor per synchronizable table,
mirroring the prisma_sync SyncId structures used in backfill.rs. -/
inductive SyncId where
  | device (pub_id : Nat)
  | storageStatistics (pub_id : Nat)
  | tag (pub_id : Nat)
  | label (name : String)
  | location (pub_id : Nat)
  | object (pub_id : Nat)
  | exifData (object_pub_id : Nat)
  | filePath (pub_id : Nat)
  | tagOnObject (tag_pub_id : Nat) (object_pub_id : Nat)
  | labelOnObject (label_name : String) (object_pub_id : Nat)
  | instance_ (pub_id : Nat)
deriving DecidableEq, Repr

/-- Field values carried by sync entries.  Scalar column values are left
abstract except for the distinction the claims need: a value is either a
scalar payload, a sync-identity reference (as produced for foreign
relations), or an explicit null (which the converters never emit). -/
inductive Value where
  | null
  | scalar (n : Nat)
  | str (s : String)
  | ref (s : SyncId)
deriving DecidableEq, Repr

/-- Entry of an operation payload: a field name paired with a value. -/
abbrev Entry : Type := String × Value

/-- Modelled from the spec: the sync_entry macro of the sd_sync crate
(not under src) builds the entry for a present column value. -/
def sync_entry (v : Value) (name : String) : Entry := (name, v)

/-- Modelled from the spec: the option_sync_entry macro of the sd_sync
crate (not under src) builds an entry from an optional column value,
yielding no entry when the value is absent: an entry is emitted for a
field only if the value is actually present. -/
def option_sync_entry (v : Option Value) (name : String) : Option Entry :=
  v.map (fun x => (name, x))

/-- Modelled from the spec: sd_utils::chain_optional_iter (not under src)
chains the required entries with those optional entries that are present,
in order; absent optional fields produce no entry. -/
def chain_optional_iter (required : List Entry) (optional : List (Option Entry)) :
    List Entry :=
  required ++ optional.reduceOption

/-- Operation kinds of the sync log: shared-create for standalone
entities, relation-create for join-table rows. -/
inductive OpKind where
  | sharedCreate
  | relationCreate
deriving DecidableEq, Repr

/-- Modelled from the spec: a stored operation record as produced by the
sync identity facade (sd_sync OperationFactory and crdt_op_unchecked_db,
not under src): the originating device identity, the operation kind, the
target sync identity and the ordered entry list.  The clock value is
irrelevant to every claim and omitted. -/
structure CRDTOperation where
  device_pub_id : Nat
  kind : OpKind
  target : SyncId
  entries : List Entry
deriving DecidableEq, Repr

/-- Modelled from the spec: the sync manager state the backfill consults,
reduced to the local device identity it exposes. -/
structure SyncManager where
  device_pub_id : Nat

/-- Modelled from the spec: SyncManager::shared_create builds a
shared-create operation for the given target tagged with the local device
identity. -/
def SyncManager.shared_create (sync : SyncManager) (target : SyncId)
    (entries : List Entry) : CRDTOperation :=
  ⟨sync.device_pub_id, .sharedCreate, target, entries⟩

/-- Modelled from the spec: SyncManager::relation_create builds a
relation-create operation for the given composite target tagged with the
local device identity. -/
def SyncManager.relation_create (sync : SyncManager) (target : SyncId)
    (entries : List Entry) : CRDTOperation :=
  ⟨sync.device_pub_id, .relationCreate, target, entries⟩

/-! ### Table rows (prisma model data as consumed by backfill.rs)

Each row structure carries the local integer key(s), the fields read by
the converter in backfill.rs (optional columns as Option Value), the
device_id column used by the fetch filters where present, and the joined
related rows reduced to the identity component the include selects. -/

/-- Device table row. -/
structure DeviceRow where
  id : Int
  pub_id : Nat
  name : Option Value
  os : Option Value
  hardware_model : Option Value
  timestamp : Option Value
  date_created : Option Value
  date_deleted : Option Value
deriving DecidableEq, Repr

/-- Storage-statistics table row, with the included device relation
reduced to its pub_id. -/
structure StorageStatisticsRow where
  pub_id : Nat
  device_id : Option Int
  total_capacity : Value
  available_capacity : Value
  device : Option Nat
deriving DecidableEq, Repr

/-- Tag table row. -/
structure TagRow where
  id : Int
  pub_id : Nat
  name : Option Value
  color : Option Value
  date_created : Option Value
  date_modified : Option Value
deriving DecidableEq, Repr

/-- Label table row; its sync identity is its name. -/
structure LabelRow where
  id : Int
  name : String
  date_created : Option Value
  date_modified : Option Value
deriving DecidableEq, Repr

/-- Location table row, with the included instance and device relations
reduced to their pub_ids. -/
structure LocationRow where
  id : Int
  pub_id : Nat
  device_id : Option Int
  name : Option Value
  path : Option Value
  total_capacity : Option Value
  available_capacity : Option Value
  size_in_bytes : Option Value
  is_archived : Option Value
  generate_preview_media : Option Value
  sync_preview_media : Option Value
  hidden : Option Value
  date_created : Option Value
  instance_ : Option Nat
  device : Option Nat
deriving DecidableEq, Repr

/-- Object table row, with the included device relation reduced to its
pub_id. -/
structure ObjectRow where
  id : Int
  pub_id : Nat
  device_id : Option Int
  kind : Option Value
  hidden : Option Value
  favorite : Option Value
  important : Option Value
  note : Option Value
  date_created : Option Value
  date_accessed : Option Value
  device : Option Nat
deriving DecidableEq, Repr

/-- EXIF-data table row; the mandatory included object relation is reduced
to its pub_id, from which the sync identity is built. -/
structure ExifDataRow where
  id : Int
  device_id : Option Int
  object_pub_id : Nat
  resolution : Option Value
  media_date : Option Value
  media_location : Option Value
  camera_data : Option Value
  artist : Option Value
  description : Option Value
  copyright : Option Value
  exif_version : Option Value
  epoch_time : Option Value
  device : Option Nat
deriving DecidableEq, Repr

/-- File-path table row, with the included location, object and device
relations reduced to their pub_ids. -/
structure FilePathRow where
  id : Int
  pub_id : Nat
  device_id : Option Int
  is_dir : Option Value
  cas_id : Option Value
  integrity_checksum : Option Value
  location : Option Nat
  object : Option Nat
  materialized_path : Option Value
  name : Option Value
  extension : Option Value
  hidden : Option Value
  size_in_bytes_bytes : Option Value
  inode : Option Value
  date_created : Option Value
  date_modified : Option Value
  date_indexed : Option Value
  device : Option Nat
deriving DecidableEq, Repr

/-- Tag-on-object relation row; date_created is an optional column here. -/
structure TagOnObjectRow where
  tag_id : Int
  object_id : Int
  device_id : Option Int
  tag_pub_id : Nat
  object_pub_id : Nat
  date_created : Option Value
  device : Option Nat
deriving DecidableEq, Repr

/-- Label-on-object relation row; date_created is a required column here,
matching its unconditional sync_entry use in backfill.rs. -/
structure LabelOnObjectRow where
  label_id : Int
  object_id : Int
  device_id : Option Int
  label_name : String
  object_pub_id : Nat
  date_created : Value
  device : Option Nat
deriving DecidableEq, Repr

/-- The relational store visible to the backfill, one list per
synchronizable table, each kept in ascending primary-key order (the order
the store returns under an ascending order_by). -/
structure Store where
  devices : List DeviceRow
  storage_statistics : List StorageStatisticsRow
  tags : List TagRow
  labels : List LabelRow
  locations : List LocationRow
  objects : List ObjectRow
  exif_datas : List ExifDataRow
  file_paths : List FilePathRow
  tags_on_objects : List TagOnObjectRow
  labels_on_objects : List LabelOnObjectRow
deriving DecidableEq, Repr

/-- Typed errors of the backfill; only the variant the embedding can
produce is modelled, storage and serialization effects being total here. -/
inductive Error where
  | DeviceNotFound (pub_id : Nat)
deriving DecidableEq, Repr

/-! ### The two generic paginators (backfill.rs, paginate and
paginate_relation)

The Rust loops repeatedly call the getter with the current cursor, set the
next cursor to the id of the last returned row (none when the page is
empty, terminating the loop), and hand each page, the final empty one
included, to the persisting operations closure.  The embedding returns the
list of fetched pages in order; the persisted operations are recovered by
mapping the per-row converter over each page (create_many appends a page
as one batch, so the log grows by the in-order image of each page).  The
loops terminate because each nonempty page strictly advances the cursor
within a finite table; the embedding makes this explicit with a fuel
argument, which the backfill instantiates with table length plus two, an
upper bound on the number of fetches proved below. -/

/-- Embedding of the loop body of paginate in backfill.rs, parameterized by
fuel: starting from a cursor, fetch a page, append it, and continue with
the id of its last row as the new cursor, stopping on a cursor of none. -/
def paginateGo {T : Type} (getter : Int → List T) (idf : T → Int) :
    Option Int → Nat → List (List T)
  | none, _ => []
  | some _, 0 => []
  | some cursor, fuel + 1 =>
    let items := getter cursor
    items :: paginateGo getter idf (items.getLast?.map idf) fuel

/-- Embedding of paginate in backfill.rs: run the cursor loop from the
initial sentinel cursor minus one. -/
def paginate {T : Type} (getter : Int → List T) (idf : T → Int) (fuel : Nat) :
    List (List T) :=
  paginateGo getter idf (some (-1)) fuel

/-- Embedding of the loop body of paginate_relation in backfill.rs, with a
composite group/item cursor pair. -/
def paginateRelationGo {T : Type} (getter : Int → Int → List T)
    (idf : T → Int × Int) : Option (Int × Int) → Nat → List (List T)
  | none, _ => []
  | some _, 0 => []
  | some cursor, fuel + 1 =>
    let items := getter cursor.1 cursor.2
    items :: paginateRelationGo getter idf (items.getLast?.map idf) fuel

/-- Embedding of paginate_relation in backfill.rs: run the composite
cursor loop from the initial sentinel pair of minus ones. -/
def paginate_relation {T : Type} (getter : Int → Int → List T)
    (idf : T → Int × Int) (fuel : Nat) : List (List T) :=
  paginateRelationGo getter idf (some (-1, -1)) fuel

/-- Pages are persisted one batch write per page, each page converted
row-by-row in order; the whole log produced by one pagination is the
concatenation of the converted pages. -/
def opsOfPages {T : Type} (pages : List (List T)) (convert : T → CRDTOperation) :
    List CRDTOperation :=
  (pages.map (List.map convert)).flatten

/-! ### Per-table fetch functions

Each fetch computes exactly the rows the Prisma query in backfill.rs
returns: the conjunction of its filters over the table, in ascending key
order (the table lists are kept in that order), truncated by take where
the query has one. -/

/-- Fetch of paginate_tags: tags with id greater than the cursor, no page
bound. -/
def tagGetter (st : Store) (cursor : Int) : List TagRow :=
  st.tags.filter (fun t => decide (cursor < t.id))

/-- Fetch of paginate_labels: labels with id greater than the cursor, no
page bound. -/
def labelGetter (st : Store) (cursor : Int) : List LabelRow :=
  st.labels.filter (fun l => decide (cursor < l.id))

/-- Fetch of paginate_locations: locations of the local device with id
greater than the cursor, first 1000. -/
def locationGetter (st : Store) (device_id : Int) (cursor : Int) :
    List LocationRow :=
  (st.locations.filter
    (fun l => decide (cursor < l.id) && decide (l.device_id = some device_id))).take 1000

/-- Fetch of paginate_objects: objects of the local device with id greater
than the cursor, first 1000. -/
def objectGetter (st : Store) (device_id : Int) (cursor : Int) :
    List ObjectRow :=
  (st.objects.filter
    (fun o => decide (cursor < o.id) && decide (o.device_id = some device_id))).take 1000

/-- Fetch of paginate_exif_datas: EXIF rows of the local device with id
greater than the cursor, first 1000. -/
def exifDataGetter (st : Store) (device_id : Int) (cursor : Int) :
    List ExifDataRow :=
  (st.exif_datas.filter
    (fun e => decide (cursor < e.id) && decide (e.device_id = some device_id))).take 1000

/-- Fetch of paginate_file_paths: file paths of the local device with id
greater than the cursor; the query has no take, so the page is unbounded. -/
def filePathGetter (st : Store) (device_id : Int) (cursor : Int) :
    List FilePathRow :=
  st.file_paths.filter
    (fun f => decide (cursor < f.id) && decide (f.device_id = some device_id))

/-- Fetch of paginate_tags_on_objects: rows of the local device whose
tag_id exceeds the group cursor and whose object_id exceeds the item
cursor, both strictly, no take. -/
def tagOnObjectGetter (st : Store) (device_id : Int) (group_id item_id : Int) :
    List TagOnObjectRow :=
  st.tags_on_objects.filter
    (fun r => decide (group_id < r.tag_id) && decide (item_id < r.object_id) &&
      decide (r.device_id = some device_id))

/-- Fetch of paginate_labels_on_objects: rows of the local device whose
label_id exceeds the group cursor and whose object_id exceeds the item
cursor, both strictly, no take. -/
def labelOnObjectGetter (st : Store) (device_id : Int) (group_id item_id : Int) :
    List LabelOnObjectRow :=
  st.labels_on_objects.filter
    (fun r => decide (group_id < r.label_id) && decide (item_id < r.object_id) &&
      decide (r.device_id = some device_id))

/-! ### Per-table converters (the operation-building closures of
backfill.rs) -/

/-- Converter of backfill_device: one shared-create for the local device
row with its optional descriptive attributes. -/
def deviceOperation (sync : SyncManager) (d : DeviceRow) : CRDTOperation :=
  sync.shared_create (.device d.pub_id)
    (chain_optional_iter []
      [ option_sync_entry d.name "name",
        option_sync_entry d.os "os",
        option_sync_entry d.hardware_model "hardware_model",
        option_sync_entry d.timestamp "timestamp",
        option_sync_entry d.date_created "date_created",
        option_sync_entry d.date_deleted "date_deleted" ])

/-- Converter of backfill_storage_statistics: required capacity entries,
optional device reference. -/
def storageStatisticsOperation (sync : SyncManager) (s : StorageStatisticsRow) :
    CRDTOperation :=
  sync.shared_create (.storageStatistics s.pub_id)
    (chain_optional_iter
      [ sync_entry s.total_capacity "total_capacity",
        sync_entry s.available_capacity "available_capacity" ]
      [ option_sync_entry (s.device.map (fun p => .ref (.device p))) "device" ])

/-- Converter of paginate_tags. -/
def tagOperation (sync : SyncManager) (t : TagRow) : CRDTOperation :=
  sync.shared_create (.tag t.pub_id)
    (chain_optional_iter []
      [ option_sync_entry t.name "name",
        option_sync_entry t.color "color",
        option_sync_entry t.date_created "date_created",
        option_sync_entry t.date_modified "date_modified" ])

/-- Converter of paginate_labels; the sync identity is the label name. -/
def labelOperation (sync : SyncManager) (l : LabelRow) : CRDTOperation :=
  sync.shared_create (.label l.name)
    (chain_optional_iter []
      [ option_sync_entry l.date_created "date_created",
        option_sync_entry l.date_modified "date_modified" ])

/-- Converter of paginate_locations. -/
def locationOperation (sync : SyncManager) (l : LocationRow) : CRDTOperation :=
  sync.shared_create (.location l.pub_id)
    (chain_optional_iter []
      [ option_sync_entry l.name "name",
        option_sync_entry l.path "path",
        option_sync_entry l.total_capacity "total_capacity",
        option_sync_entry l.available_capacity "available_capacity",
        option_sync_entry l.size_in_bytes "size_in_bytes",
        option_sync_entry l.is_archived "is_archived",
        option_sync_entry l.generate_preview_media "generate_preview_media",
        option_sync_entry l.sync_preview_media "sync_preview_media",
        option_sync_entry l.hidden "hidden",
        option_sync_entry l.date_created "date_created",
        option_sync_entry (l.instance_.map (fun p => .ref (.instance_ p)))
          "instance",
        option_sync_entry (l.device.map (fun p => .ref (.device p))) "device" ])

/-- Converter of paginate_objects. -/
def objectOperation (sync : SyncManager) (o : ObjectRow) : CRDTOperation :=
  sync.shared_create (.object o.pub_id)
    (chain_optional_iter []
      [ option_sync_entry o.kind "kind",
        option_sync_entry o.hidden "hidden",
        option_sync_entry o.favorite "favorite",
        option_sync_entry o.important "important",
        option_sync_entry o.note "note",
        option_sync_entry o.date_created "date_created",
        option_sync_entry o.date_accessed "date_accessed",
        option_sync_entry (o.device.map (fun p => .ref (.device p))) "device" ])

/-- Converter of paginate_exif_datas; the sync identity is the owning
object identity. -/
def exifDataOperation (sync : SyncManager) (e : ExifDataRow) : CRDTOperation :=
  sync.shared_create (.exifData e.object_pub_id)
    (chain_optional_iter []
      [ option_sync_entry e.resolution "resolution",
        option_sync_entry e.media_date "media_date",
        option_sync_entry e.media_location "media_location",
        option_sync_entry e.camera_data "camera_data",
        option_sync_entry e.artist "artist",
        option_sync_entry e.description "description",
        option_sync_entry e.copyright "copyright",
        option_sync_entry e.exif_version "exif_version",
        option_sync_entry e.epoch_time "epoch_time",
        option_sync_entry (e.device.map (fun p => .ref (.device p))) "device" ])

/-- Converter of paginate_file_paths. -/
def filePathOperation (sync : SyncManager) (f : FilePathRow) : CRDTOperation :=
  sync.shared_create (.filePath f.pub_id)
    (chain_optional_iter []
      [ option_sync_entry f.is_dir "is_dir",
        option_sync_entry f.cas_id "cas_id",
        option_sync_entry f.integrity_checksum "integrity_checksum",
        option_sync_entry (f.location.map (fun p => .ref (.location p)))
          "location",
        option_sync_entry (f.object.map (fun p => .ref (.object p))) "object",
        option_sync_entry f.materialized_path "materialized_path",
        option_sync_entry f.name "name",
        option_sync_entry f.extension "extension",
        option_sync_entry f.hidden "hidden",
        option_sync_entry f.size_in_bytes_bytes "size_in_bytes_bytes",
        option_sync_entry f.inode "inode",
        option_sync_entry f.date_created "date_created",
        option_sync_entry f.date_modified "date_modified",
        option_sync_entry f.date_indexed "date_indexed",
        option_sync_entry (f.device.map (fun p => .ref (.device p))) "device" ])

/-- Converter of paginate_tags_on_objects: a relation-create whose
date_created entry is optional. -/
def tagOnObjectOperation (sync : SyncManager) (r : TagOnObjectRow) :
    CRDTOperation :=
  sync.relation_create (.tagOnObject r.tag_pub_id r.object_pub_id)
    (chain_optional_iter []
      [ option_sync_entry r.date_created "date_created",
        option_sync_entry (r.device.map (fun p => .ref (.device p))) "device" ])

/-- Converter of paginate_labels_on_objects: a relation-create whose
date_created entry is required (emitted unconditionally). -/
def labelOnObjectOperation (sync : SyncManager) (r : LabelOnObjectRow) :
    CRDTOperation :=
  sync.relation_create (.labelOnObject r.label_name r.object_pub_id)
    (chain_optional_iter
      [ sync_entry r.date_created "date_created" ]
      [ option_sync_entry (r.device.map (fun p => .ref (.device p))) "device" ])

/-! ### Per-table pagination runs and the backfill orchestrator -/

/-- Operations produced by paginate_tags. -/
def paginate_tags (sync : SyncManager) (st : Store) : List CRDTOperation :=
  opsOfPages (paginate (tagGetter st) TagRow.id (st.tags.length + 2))
    (tagOperation sync)

/-- Operations produced by paginate_labels. -/
def paginate_labels (sync : SyncManager) (st : Store) : List CRDTOperation :=
  opsOfPages (paginate (labelGetter st) LabelRow.id (st.labels.length + 2))
    (labelOperation sync)

/-- Operations produced by paginate_locations. -/
def paginate_locations (sync : SyncManager) (st : Store) (device_id : Int) :
    List CRDTOperation :=
  opsOfPages
    (paginate (locationGetter st device_id) LocationRow.id
      (st.locations.length + 2))
    (locationOperation sync)

/-- Operations produced by paginate_objects. -/
def paginate_objects (sync : SyncManager) (st : Store) (device_id : Int) :
    List CRDTOperation :=
  opsOfPages
    (paginate (objectGetter st device_id) ObjectRow.id (st.objects.length + 2))
    (objectOperation sync)

/-- Operations produced by paginate_exif_datas. -/
def paginate_exif_datas (sync : SyncManager) (st : Store) (device_id : Int) :
    List CRDTOperation :=
  opsOfPages
    (paginate (exifDataGetter st device_id) ExifDataRow.id
      (st.exif_datas.length + 2))
    (exifDataOperation sync)

/-- Operations produced by paginate_file_paths. -/
def paginate_file_paths (sync : SyncManager) (st : Store) (device_id : Int) :
    List CRDTOperation :=
  opsOfPages
    (paginate (filePathGetter st device_id) FilePathRow.id
      (st.file_paths.length + 2))
    (filePathOperation sync)

/-- Operations produced by paginate_tags_on_objects. -/
def paginate_tags_on_objects (sync : SyncManager) (st : Store)
    (device_id : Int) : List CRDTOperation :=
  opsOfPages
    (paginate_relation (tagOnObjectGetter st device_id)
      (fun r => (r.tag_id, r.object_id)) (st.tags_on_objects.length + 2))
    (tagOnObjectOperation sync)

/-- Operations produced by paginate_labels_on_objects. -/
def paginate_labels_on_objects (sync : SyncManager) (st : Store)
    (device_id : Int) : List CRDTOperation :=
  opsOfPages
    (paginate_relation (labelOnObjectGetter st device_id)
      (fun r => (r.label_id, r.object_id)) (st.labels_on_objects.length + 2))
    (labelOnObjectOperation sync)

/-- Operations produced by backfill_device for the re-fetched local device
row. -/
def backfill_device (sync : SyncManager) (d : DeviceRow) :
    List CRDTOperation :=
  [deviceOperation sync d]

/-- Operations produced by backfill_storage_statistics: the first
statistics row of the local device if any, else nothing (a no-op, not an
error). -/
def backfill_storage_statistics (sync : SyncManager) (st : Store)
    (device_id : Int) : List CRDTOperation :=
  match st.storage_statistics.find? (fun s => decide (s.device_id = some device_id)) with
  | none => []
  | some s => [storageStatisticsOperation sync s]

/-- The wipe step: delete_many over operations whose device identity
equals the given one keeps exactly the records of other devices. -/
def wipeDeviceOperations (log : List CRDTOperation) (pub_id : Nat) :
    List CRDTOperation :=
  log.filter (fun op => decide (op.device_pub_id ≠ pub_id))

/-- All operations regenerated by one backfill run for the found local
device row: the device row operation, then the first concurrent wave
(storage statistics, tags, locations, objects, labels), then the second
(EXIF data, file paths, tag-on-object, label-on-object).  Concurrent
tasks of a wave are serialized here in tuple order; every claim below is
insensitive to the interleaving of writes across tables. -/
def backfillNewOps (sync : SyncManager) (st : Store)
    (local_device : DeviceRow) : List CRDTOperation :=
  backfill_device sync local_device ++
    (backfill_storage_statistics sync st local_device.id ++
      paginate_tags sync st ++
      paginate_locations sync st local_device.id ++
      paginate_objects sync st local_device.id ++
      paginate_labels sync st) ++
    (paginate_exif_datas sync st local_device.id ++
      paginate_file_paths sync st local_device.id ++
      paginate_tags_on_objects sync st local_device.id ++
      paginate_labels_on_objects sync st local_device.id)

/-- Embedding of backfill_operations: look up the local device row by
pub_id (its absence aborts with DeviceNotFound before anything is
written), then inside one transaction wipe the local-device operations and
append the regenerated operations of every table.  On success the new
stored log is returned; an error rolls the transaction back. -/
def backfill_operations (sync : SyncManager) (st : Store)
    (log : List CRDTOperation) : Except Error (List CRDTOperation) :=
  match st.devices.find? (fun d => decide (d.pub_id = sync.device_pub_id)) with
  | none => .error (.DeviceNotFound sync.device_pub_id)
  | some local_device =>
    .ok (wipeDeviceOperations log sync.device_pub_id ++
      backfillNewOps sync st local_device)

/-- The stored log after a backfill attempt: the new log on success, the
old log unchanged when the transaction aborted. -/
def runBackfill (sync : SyncManager) (st : Store) (log : List CRDTOperation) :
    List CRDTOperation :=
  match backfill_operations sync st log with
  | .ok newLog => newLog
  | .error _ => log

/-- Operations of the stored log attributed to the given sync manager
device: after a successful backfill these are exactly the regenerated
operations. -/
def localOps (sync : SyncManager) (log : List CRDTOperation) :
    List CRDTOperation :=
  log.filter (fun op => decide (op.device_pub_id = sync.device_pub_id))

/-- Well-formedness of a store, matching the database schema invariants:
each table list is in strictly ascending local-key order (keys are
positive autoincrement integers, hence above the sentinel cursors), and
the columns with a uniqueness constraint that feed sync identities are
duplicate-free. -/
def Store.WF (st : Store) : Prop :=
  st.tags.Pairwise (fun a b => a.id < b.id) ∧
  (∀ t ∈ st.tags, -1 < t.id) ∧
  (st.tags.map TagRow.pub_id).Nodup ∧
  st.labels.Pairwise (fun a b => a.id < b.id) ∧
  (∀ l ∈ st.labels, -1 < l.id) ∧
  (st.labels.map LabelRow.name).Nodup ∧
  st.locations.Pairwise (fun a b => a.id < b.id) ∧
  (∀ l ∈ st.locations, -1 < l.id) ∧
  (st.locations.map LocationRow.pub_id).Nodup ∧
  st.objects.Pairwise (fun a b => a.id < b.id) ∧
  (∀ o ∈ st.objects, -1 < o.id) ∧
  (st.objects.map ObjectRow.pub_id).Nodup ∧
  st.exif_datas.Pairwise (fun a b => a.id < b.id) ∧
  (∀ e ∈ st.exif_datas, -1 < e.id) ∧
  (st.exif_datas.map ExifDataRow.object_pub_id).Nodup ∧
  st.file_paths.Pairwise (fun a b => a.id < b.id) ∧
  (∀ f ∈ st.file_paths, -1 < f.id) ∧
  (st.file_paths.map FilePathRow.pub_id).Nodup ∧
  st.tags_on_objects.Pairwise (fun a b =>
    a.tag_id < b.tag_id ∨ (a.tag_id = b.tag_id ∧ a.object_id < b.object_id)) ∧
  (∀ r ∈ st.tags_on_objects, 0 ≤ r.tag_id ∧ 0 ≤ r.object_id) ∧
  (st.tags_on_objects.map (fun r => (r.tag_pub_id, r.object_pub_id))).Nodup ∧
  st.labels_on_objects.Pairwise (fun a b =>
    a.label_id < b.label_id ∨
      (a.label_id = b.label_id ∧ a.object_id < b.object_id)) ∧
  (∀ r ∈ st.labels_on_objects, 0 ≤ r.label_id ∧ 0 ≤ r.object_id) ∧
  (st.labels_on_objects.map (fun r => (r.label_name, r.object_pub_id))).Nodup

/-! ### Concrete instances used by counterexamples and witnesses -/

/-- File-path row with the given positive key, owned by device row one,
every optional attribute absent. -/
def filePathRowOfId (n : Nat) : FilePathRow :=
  { id := (n : Int), pub_id := n, device_id := some 1,
    is_dir := none, cas_id := none, integrity_checksum := none,
    location := none, object := none, materialized_path := none,
    name := none, extension := none, hidden := none,
    size_in_bytes_bytes := none, inode := none, date_created := none,
    date_modified := none, date_indexed := none, device := none }

/-- Table of exactly 2500 file-path rows with keys one through 2500. -/
def filePathTable2500 : List FilePathRow :=
  (List.range 2500).map (fun n => filePathRowOfId (n + 1))

/-- Store holding exactly 2500 file-path rows of the local device and
nothing else besides the device row. -/
def store2500 : Store :=
  { devices := [⟨1, 10, none, none, none, none, none, none⟩],
    storage_statistics := [], tags := [], labels := [], locations := [],
    objects := [], exif_datas := [], file_paths := filePathTable2500,
    tags_on_objects := [], labels_on_objects := [] }

/-- Pages fetched by the file-path pagination over the 2500-row store, at
the fuel the backfill uses for that table. -/
def filePathPages2500 : List (List FilePathRow) :=
  paginate (filePathGetter store2500 1) FilePathRow.id
    (store2500.file_paths.length + 2)

/-- Location row owned by the other (second) device row. -/
def cexLocationRow : LocationRow :=
  { id := 1, pub_id := 100, device_id := some 2,
    name := none, path := none, total_capacity := none,
    available_capacity := none, size_in_bytes := none,
    is_archived := none, generate_preview_media := none,
    sync_preview_media := none, hidden := none, date_created := none,
    instance_ := none, device := none }

/-- Store with a second device row and a location owned by that other
device: rows the backfill run of device pub_id ten regenerates no
operation for. -/
def cexStore : Store :=
  { devices := [⟨1, 10, none, none, none, none, none, none⟩,
      ⟨2, 20, none, none, none, none, none, none⟩],
    storage_statistics := [], tags := [], labels := [],
    locations := [cexLocationRow],
    objects := [], exif_datas := [], file_paths := [],
    tags_on_objects := [], labels_on_objects := [] }

/-- Statistics row of the witness store. -/
def wStatsRow : StorageStatisticsRow :=
  { pub_id := 50, device_id := some 1, total_capacity := Value.scalar 7,
    available_capacity := Value.scalar 3, device := some 10 }

/-- Location row of the witness store. -/
def wLocationRow : LocationRow :=
  { id := 1, pub_id := 301, device_id := some 1,
    name := none, path := none, total_capacity := none,
    available_capacity := none, size_in_bytes := none,
    is_archived := none, generate_preview_media := none,
    sync_preview_media := none, hidden := none, date_created := none,
    instance_ := none, device := some 10 }

/-- Object row of the witness store. -/
def wObjectRow : ObjectRow :=
  { id := 1, pub_id := 401, device_id := some 1,
    kind := none, hidden := none, favorite := none, important := none,
    note := none, date_created := none, date_accessed := none,
    device := some 10 }

/-- EXIF row of the witness store. -/
def wExifRow : ExifDataRow :=
  { id := 1, device_id := some 1, object_pub_id := 401,
    resolution := none, media_date := none, media_location := none,
    camera_data := none, artist := none, description := none,
    copyright := none, exif_version := none, epoch_time := none,
    device := some 10 }

/-- File-path row of the witness store. -/
def wFilePathRow : FilePathRow :=
  { id := 1, pub_id := 501, device_id := some 1,
    is_dir := none, cas_id := none, integrity_checksum := none,
    location := some 301, object := some 401, materialized_path := none,
    name := none, extension := none, hidden := none,
    size_in_bytes_bytes := none, inode := none, date_created := none,
    date_modified := none, date_indexed := none, device := some 10 }

/-- Tag-membership row of the witness store. -/
def wTagOnObjectRow : TagOnObjectRow :=
  { tag_id := 1, object_id := 1, device_id := some 1,
    tag_pub_id := 201, object_pub_id := 401, date_created := none,
    device := some 10 }

/-- Label-membership row of the witness store. -/
def wLabelOnObjectRow : LabelOnObjectRow :=
  { label_id := 1, object_id := 1, device_id := some 1,
    label_name := "lbl", object_pub_id := 401,
    date_created := Value.scalar 9, device := some 10 }

/-- Tag row with present name and creation date and absent color and
modification date. -/
def c5TagRow : TagRow :=
  ⟨1, 5, some (Value.str "work"), none, some (Value.scalar 3), none⟩

/-- Well-formed store with one local row in every synchronizable table,
used to witness the backfill theorems on a concrete input. -/
def witnessStore : Store :=
  { devices := [⟨1, 10, none, none, none, none, none, none⟩],
    storage_statistics := [wStatsRow],
    tags := [⟨1, 201, none, none, none, none⟩],
    labels := [⟨1, "lbl", none, none⟩],
    locations := [wLocationRow],
    objects := [wObjectRow],
    exif_datas := [wExifRow],
    file_paths := [wFilePathRow],
    tags_on_objects := [wTagOnObjectRow],
    labels_on_objects := [wLabelOnObjectRow] }

/-! ### Pagination lemmas

The key invariant of the cursor loop: when the rows of the table carrying
keys above the cursor form the suffix l of the table, the fetched page is
the first pageSize rows of l and the next cursor (the key of the last row
of the page) selects exactly the remaining suffix. -/

/-- Rows above a cursor that is below every key form the whole list. -/
theorem filter_cursor_eq_self {T : Type} (idf : T → Int) (l : List T) (c : Int)
    (h : ∀ x ∈ l, c < idf x) :
    l.filter (fun x => decide (c < idf x)) = l :=
  List.filter_eq_self.mpr (fun x hx => decide_eq_true (h x hx))

/-- In a list whose keys are strictly increasing, the rows whose key
exceeds the key of the last row of the first n rows are exactly the rows
after the first n. -/
theorem filter_gt_getLast_take {T : Type} (idf : T → Int) :
    ∀ (l : List T), l.Pairwise (fun a b => idf a < idf b) →
      ∀ (n : Nat) (a : T), (l.take n).getLast? = some a →
        l.filter (fun x => decide (idf a < idf x)) = l.drop n := by
  intro l
  induction l with
  | nil => intro _ n a h; simp at h
  | cons x t ih =>
    intro hp n a h
    match n with
    | 0 => simp at h
    | Nat.succ m =>
      rw [List.take_succ_cons] at h
      cases e : t.take m with
      | nil =>
        rw [e] at h
        simp only [List.getLast?_singleton, Option.some.injEq] at h
        subst h
        rcases List.take_eq_nil_iff.mp e with hm | ht
        · subst hm
          simp only [List.drop_succ_cons, List.drop_zero, List.filter_cons,
            decide_eq_true_eq]
          rw [if_neg (fun hc => lt_irrefl _ hc)]
          exact filter_cursor_eq_self idf t (idf x)
            (fun y hy => List.rel_of_pairwise_cons hp hy)
        · subst ht
          simp
      | cons b bs =>
        rw [e, List.getLast?_cons_cons, ← e] at h
        have hmem : a ∈ t := List.mem_of_mem_take (List.mem_of_mem_getLast? h)
        have hxa : idf x < idf a := List.rel_of_pairwise_cons hp hmem
        rw [List.drop_succ_cons, List.filter_cons]
        rw [if_neg (by simp only [decide_eq_true_eq]; exact fun hc => lt_asymm hxa hc)]
        exact ih (List.Pairwise.of_cons hp) m a h

/-- The last element of a list related pairwise bounds every element: each
member either is the last element or is related to it. -/
theorem pairwise_rel_getLast {T : Type} (R : T → T → Prop) :
    ∀ (l : List T) (b : T), l.Pairwise R → l.getLast? = some b →
      ∀ x ∈ l, x = b ∨ R x b := by
  intro l
  induction l with
  | nil => intro b _ h; simp at h
  | cons a t ih =>
    intro b hp h x hx
    cases t with
    | nil =>
      simp only [List.getLast?_singleton, Option.some.injEq] at h
      subst h
      simp only [List.mem_singleton] at hx
      exact Or.inl hx
    | cons c cs =>
      rw [List.getLast?_cons_cons] at h
      have hbt : b ∈ c :: cs := List.mem_of_mem_getLast? h
      rcases List.mem_cons.mp hx with hxa | hxt
      · subst hxa
        exact Or.inr (List.rel_of_pairwise_cons hp hbt)
      · exact ih b (List.Pairwise.of_cons hp) h x hxt

/-- Main correctness of the bounded cursor paginator: over a table slice L
with strictly increasing keys, fetching pages of size ps by filter and
take, the pages produced from a cursor whose suffix is l concatenate back
to l, and the number of nonempty pages is the number of rows divided by ps
rounded up.  Instantiated below at the initial sentinel cursor. -/
theorem paginateGo_bounded_spec {T : Type} (L : List T) (idf : T → Int)
    (hL : L.Pairwise (fun a b => idf a < idf b)) (ps : Nat) (hps : 0 < ps) :
    ∀ (fuel : Nat) (c : Int) (l : List T),
      L.filter (fun x => decide (c < idf x)) = l → l.length + 2 ≤ fuel →
      (paginateGo (fun k => (L.filter (fun x => decide (k < idf x))).take ps)
          idf (some c) fuel).flatten = l ∧
      (paginateGo (fun k => (L.filter (fun x => decide (k < idf x))).take ps)
          idf (some c) fuel).countP (fun p => !p.isEmpty) =
        (l.length + ps - 1) / ps := by
  intro fuel
  induction fuel with
  | zero => intro c l _ hle; omega
  | succ f ih =>
    intro c l hfilter hle
    simp only [paginateGo, hfilter]
    by_cases hl : l = []
    · subst hl
      simp only [List.take_nil, List.getLast?_nil, Option.map_none']
      simp only [paginateGo]
      constructor
      · simp
      · simp only [List.countP_cons, List.isEmpty_nil, Bool.not_true,
          List.countP_nil]
        rw [if_neg (by simp)]
        simp only [List.length_nil, Nat.zero_add]
        exact (Nat.div_eq_of_lt (by omega)).symm
    · have hlen : 1 ≤ l.length := List.length_pos.mpr hl
      have htne : l.take ps ≠ [] := by
        intro hc
        rcases List.take_eq_nil_iff.mp hc with h0 | h0
        · omega
        · exact hl h0
      obtain ⟨b, hb⟩ := Option.isSome_iff_exists.mp
        (List.getLast?_isSome.mpr htne)
      rw [hb]
      simp only [Option.map_some']
      have hbl : b ∈ l := List.mem_of_mem_take (List.mem_of_mem_getLast? hb)
      have hcb : c < idf b := by
        have hmem : b ∈ L.filter (fun x => decide (c < idf x)) := by
          rw [hfilter]; exact hbl
        have := List.of_mem_filter hmem
        simpa using this
      have hlp : l.Pairwise (fun a b => idf a < idf b) := by
        rw [← hfilter]
        exact hL.filter _
      have hnext : L.filter (fun x => decide (idf b < idf x)) = l.drop ps := by
        have h1 : l.filter (fun x => decide (idf b < idf x)) = l.drop ps :=
          filter_gt_getLast_take idf l hlp ps b hb
        have h2 : L.filter (fun x => decide (idf b < idf x)) =
            l.filter (fun x => decide (idf b < idf x)) := by
          conv_rhs => rw [← hfilter]
          rw [List.filter_filter]
          refine (List.filter_congr (fun x _ => ?_)).symm
          by_cases hx : idf b < idf x
          · have hcx : c < idf x := lt_trans hcb hx
            simp [hx, hcx]
          · simp [hx]
        rw [h2, h1]
      have hdroplen : (l.drop ps).length = l.length - ps := List.length_drop ..
      obtain ⟨ihflat, ihcount⟩ := ih (idf b) (l.drop ps) hnext
        (by rw [hdroplen]; omega)
      constructor
      · simp only [List.flatten_cons, ihflat]
        exact List.take_append_drop ps l
      · simp only [List.countP_cons, ihcount]
        rw [if_pos (by simp [htne])]
        rw [hdroplen]
        rcases Nat.le_total ps l.length with hple | hple
        · have e2 : l.length - ps + ps - 1 = l.length - 1 := by omega
          have e3 : l.length + ps - 1 = (l.length - 1) + ps := by omega
          rw [e2, e3, Nat.add_div_right _ hps]
        · have e1 : l.length - ps = 0 := Nat.sub_eq_zero_of_le hple
          have e2 : l.length + ps - 1 = (l.length - 1) + ps := by omega
          rw [e1, e2, Nat.add_div_right _ hps,
            Nat.div_eq_of_lt (by omega : 0 + ps - 1 < ps),
            Nat.div_eq_of_lt (by omega : l.length - 1 < ps)]

/-- Correctness of the bounded cursor paginator from the initial sentinel
cursor: when every key of the table slice exceeds the sentinel, the pages
concatenate to the whole slice (every row exactly once, in stored
ascending order) and the nonempty page count is the row count divided by
the page size rounded up. -/
theorem paginate_bounded_run {T : Type} (L : List T) (idf : T → Int)
    (hL : L.Pairwise (fun a b => idf a < idf b))
    (hpos : ∀ x ∈ L, -1 < idf x) (ps : Nat) (hps : 0 < ps) (fuel : Nat)
    (hf : L.length + 2 ≤ fuel) :
    (paginate (fun k => (L.filter (fun x => decide (k < idf x))).take ps)
        idf fuel).flatten = L ∧
    (paginate (fun k => (L.filter (fun x => decide (k < idf x))).take ps)
        idf fuel).countP (fun p => !p.isEmpty) = (L.length + ps - 1) / ps :=
  paginateGo_bounded_spec L idf hL ps hps fuel (-1) L
    (filter_cursor_eq_self idf L (-1) hpos) hf

/-- Behavior of an unbounded fetch in the cursor paginator: when the first
fetch returns the whole table slice, the run consists of that single full
page followed by one empty page (the terminating fetch); on an empty slice
it is the single empty page. -/
theorem paginateGo_unbounded_pages {T : Type} (L : List T) (idf : T → Int)
    (hL : L.Pairwise (fun a b => idf a < idf b)) :
    ∀ (fuel : Nat) (c : Int), 2 ≤ fuel →
      L.filter (fun x => decide (c < idf x)) = L →
      paginateGo (fun k => L.filter (fun x => decide (k < idf x))) idf
          (some c) fuel =
        if L.isEmpty then [[]] else [L, []] := by
  intro fuel c hf hfull
  match fuel, hf with
  | Nat.succ (Nat.succ f), _ =>
    simp only [paginateGo, hfull]
    by_cases hL0 : L = []
    · subst hL0
      simp [paginateGo]
    · rw [if_neg (by simp [hL0])]
      obtain ⟨b, hb⟩ := Option.isSome_iff_exists.mp
        (List.getLast?_isSome.mpr hL0)
      rw [hb]
      simp only [Option.map_some']
      have hbtake : (L.take L.length).getLast? = some b := by
        rw [List.take_length]; exact hb
      have hempty : L.filter (fun x => decide (idf b < idf x)) = [] := by
        rw [filter_gt_getLast_take idf L hL L.length b hbtake]
        exact List.drop_length L
      simp only [paginateGo, hempty]
      simp [paginateGo]

/-- Behavior of the relation fetch in the composite-cursor paginator: the
call sites filter with a conjunction of strict inequalities on both key
components, without a page bound.  When the first fetch returns the whole
slice (as it does from the sentinel pair when keys are nonnegative), the
run is that single full page followed by one empty page, because no row
has a group key strictly above the group key of the lexicographically last
row. -/
theorem paginateRelationGo_unbounded_pages {T : Type} (L : List T)
    (kg ki : T → Int)
    (hL : L.Pairwise (fun a b =>
      kg a < kg b ∨ (kg a = kg b ∧ ki a < ki b))) :
    ∀ (fuel : Nat) (g i : Int), 2 ≤ fuel →
      L.filter (fun r => decide (g < kg r) && decide (i < ki r)) = L →
      paginateRelationGo
          (fun g i =>
            L.filter (fun r => decide (g < kg r) && decide (i < ki r)))
          (fun r => (kg r, ki r)) (some (g, i)) fuel =
        if L.isEmpty then [[]] else [L, []] := by
  intro fuel g i hf hfull
  match fuel, hf with
  | Nat.succ (Nat.succ f), _ =>
    simp only [paginateRelationGo, hfull]
    by_cases hL0 : L = []
    · subst hL0
      simp [paginateRelationGo]
    · rw [if_neg (by simp [hL0])]
      obtain ⟨b, hb⟩ := Option.isSome_iff_exists.mp
        (List.getLast?_isSome.mpr hL0)
      rw [hb]
      simp only [Option.map_some']
      have hempty : L.filter
          (fun r => decide (kg b < kg r) && decide (ki b < ki r)) = [] := by
        rw [List.filter_eq_nil_iff]
        intro r hr
        rcases pairwise_rel_getLast _ L b hL hb r hr with hrb | hrb
        · subst hrb
          simp
        · rcases hrb with h1 | ⟨h1, _⟩
          · simp only [Bool.and_eq_true, decide_eq_true_eq, not_and]
            intro hc
            exact absurd hc (lt_asymm h1)
          · simp only [Bool.and_eq_true, decide_eq_true_eq, not_and]
            intro hc
            rw [h1] at hc
            exact absurd hc (lt_irrefl _)
      simp only [paginateRelationGo, hempty]
      simp [paginateRelationGo]

/-- Persisting the pages batch-by-batch appends the same operations as
converting the concatenation of all pages row by row. -/
theorem opsOfPages_eq_map {T : Type} (pages : List (List T))
    (convert : T → CRDTOperation) :
    opsOfPages pages convert = pages.flatten.map convert :=
  (List.map_flatten convert pages).symm

/-- Counting with pointwise equal predicates gives equal counts. -/
theorem countP_congr_bool {T : Type} (l : List T) (p q : T → Bool)
    (h : ∀ a ∈ l, p a = q a) : l.countP p = l.countP q := by
  rw [List.countP_eq_length_filter, List.countP_eq_length_filter,
    List.filter_congr h]

/-- In a list whose image under a key function has no duplicates, exactly
one element carries the key of a given member. -/
theorem countP_key_nodup {R β : Type} [DecidableEq β] (key : R → β) :
    ∀ (rows : List R), (rows.map key).Nodup → ∀ a ∈ rows,
      rows.countP (fun r => decide (key r = key a)) = 1 := by
  intro rows
  induction rows with
  | nil => intro _ a ha; simp at ha
  | cons x t ih =>
    intro hnd a ha
    rw [List.map_cons, List.nodup_cons] at hnd
    rw [List.countP_cons]
    rcases List.mem_cons.mp ha with hax | hat
    · subst hax
      rw [if_pos (by simp)]
      have h0 : t.countP (fun r => decide (key r = key a)) = 0 := by
        rw [List.countP_eq_zero]
        intro r hr hc
        simp only [decide_eq_true_eq] at hc
        exact hnd.1 (hc ▸ List.mem_map_of_mem key hr)
      omega
    · rw [ih hnd.2 a hat, if_neg (by
        simp only [decide_eq_true_eq]
        intro hc
        exact hnd.1 (hc ▸ List.mem_map_of_mem key hat))]

/-- Converted rows whose targets all differ from a given identity
contribute no operation counted against that identity. -/
theorem countP_target_map_zero {R : Type} (rows : List R)
    (conv : R → CRDTOperation) (tgt : SyncId)
    (h : ∀ r ∈ rows, (conv r).target ≠ tgt) :
    (rows.map conv).countP (fun op => decide (op.target = tgt)) = 0 := by
  rw [List.countP_map, List.countP_eq_zero]
  intro r hr hc
  simp only [Function.comp_apply, decide_eq_true_eq] at hc
  exact h r hr hc

/-- Targets of the converters, read off their definitions. -/
theorem tagOperation_target (sync : SyncManager) (t : TagRow) :
    (tagOperation sync t).target = .tag t.pub_id := rfl

theorem labelOperation_target (sync : SyncManager) (l : LabelRow) :
    (labelOperation sync l).target = .label l.name := rfl

theorem locationOperation_target (sync : SyncManager) (l : LocationRow) :
    (locationOperation sync l).target = .location l.pub_id := rfl

theorem objectOperation_target (sync : SyncManager) (o : ObjectRow) :
    (objectOperation sync o).target = .object o.pub_id := rfl

theorem exifDataOperation_target (sync : SyncManager) (e : ExifDataRow) :
    (exifDataOperation sync e).target = .exifData e.object_pub_id := rfl

theorem filePathOperation_target (sync : SyncManager) (f : FilePathRow) :
    (filePathOperation sync f).target = .filePath f.pub_id := rfl

theorem tagOnObjectOperation_target (sync : SyncManager) (r : TagOnObjectRow) :
    (tagOnObjectOperation sync r).target =
      .tagOnObject r.tag_pub_id r.object_pub_id := rfl

theorem labelOnObjectOperation_target (sync : SyncManager)
    (r : LabelOnObjectRow) :
    (labelOnObjectOperation sync r).target =
      .labelOnObject r.label_name r.object_pub_id := rfl

theorem deviceOperation_target (sync : SyncManager) (d : DeviceRow) :
    (deviceOperation sync d).target = .device d.pub_id := rfl

theorem storageStatisticsOperation_target (sync : SyncManager)
    (s : StorageStatisticsRow) :
    (storageStatisticsOperation sync s).target =
      .storageStatistics s.pub_id := rfl

/-! ### Per-table pagination runs

With the table lists sorted by their local keys and keys above the
sentinel, every pagination run converts exactly the rows its filters
select, once each, in stored order. -/

theorem paginate_tags_run (sync : SyncManager) (st : Store)
    (hsort : st.tags.Pairwise (fun a b => a.id < b.id))
    (hpos : ∀ t ∈ st.tags, -1 < t.id) :
    paginate_tags sync st = st.tags.map (tagOperation sync) := by
  have hg : tagGetter st = fun k =>
      st.tags.filter (fun x => decide (k < TagRow.id x)) := rfl
  rw [paginate_tags, opsOfPages_eq_map, hg, paginate,
    paginateGo_unbounded_pages st.tags TagRow.id hsort (st.tags.length + 2)
      (-1) (by omega) (filter_cursor_eq_self TagRow.id st.tags (-1) hpos)]
  by_cases h : st.tags = []
  · simp [h]
  · rw [if_neg (by simp [h])]
    simp

theorem paginate_labels_run (sync : SyncManager) (st : Store)
    (hsort : st.labels.Pairwise (fun a b => a.id < b.id))
    (hpos : ∀ l ∈ st.labels, -1 < l.id) :
    paginate_labels sync st = st.labels.map (labelOperation sync) := by
  have hg : labelGetter st = fun k =>
      st.labels.filter (fun x => decide (k < LabelRow.id x)) := rfl
  rw [paginate_labels, opsOfPages_eq_map, hg, paginate,
    paginateGo_unbounded_pages st.labels LabelRow.id hsort
      (st.labels.length + 2) (-1) (by omega)
      (filter_cursor_eq_self LabelRow.id st.labels (-1) hpos)]
  by_cases h : st.labels = []
  · simp [h]
  · rw [if_neg (by simp [h])]
    simp

theorem paginate_locations_run (sync : SyncManager) (st : Store) (d : Int)
    (hsort : st.locations.Pairwise (fun a b => a.id < b.id))
    (hpos : ∀ l ∈ st.locations, -1 < l.id) :
    paginate_locations sync st d =
      (st.locations.filter (fun l => decide (l.device_id = some d))).map
        (locationOperation sync) := by
  have hg : locationGetter st d = fun k =>
      ((st.locations.filter (fun l => decide (l.device_id = some d))).filter
        (fun x => decide (k < LocationRow.id x))).take 1000 := by
    funext k
    rw [locationGetter, List.filter_filter]
  obtain ⟨hflat, -⟩ := paginate_bounded_run
    (st.locations.filter (fun l => decide (l.device_id = some d)))
    LocationRow.id (hsort.filter _)
    (fun x hx => hpos x (List.mem_of_mem_filter hx)) 1000 (by omega)
    (st.locations.length + 2)
    (by
      have := List.length_filter_le
        (fun l => decide (l.device_id = some d)) st.locations
      omega)
  rw [paginate_locations, opsOfPages_eq_map, hg, hflat]

theorem paginate_objects_run (sync : SyncManager) (st : Store) (d : Int)
    (hsort : st.objects.Pairwise (fun a b => a.id < b.id))
    (hpos : ∀ o ∈ st.objects, -1 < o.id) :
    paginate_objects sync st d =
      (st.objects.filter (fun o => decide (o.device_id = some d))).map
        (objectOperation sync) := by
  have hg : objectGetter st d = fun k =>
      ((st.objects.filter (fun o => decide (o.device_id = some d))).filter
        (fun x => decide (k < ObjectRow.id x))).take 1000 := by
    funext k
    rw [objectGetter, List.filter_filter]
  obtain ⟨hflat, -⟩ := paginate_bounded_run
    (st.objects.filter (fun o => decide (o.device_id = some d)))
    ObjectRow.id (hsort.filter _)
    (fun x hx => hpos x (List.mem_of_mem_filter hx)) 1000 (by omega)
    (st.objects.length + 2)
    (by
      have := List.length_filter_le
        (fun o => decide (o.device_id = some d)) st.objects
      omega)
  rw [paginate_objects, opsOfPages_eq_map, hg, hflat]

theorem paginate_exif_datas_run (sync : SyncManager) (st : Store) (d : Int)
    (hsort : st.exif_datas.Pairwise (fun a b => a.id < b.id))
    (hpos : ∀ e ∈ st.exif_datas, -1 < e.id) :
    paginate_exif_datas sync st d =
      (st.exif_datas.filter (fun e => decide (e.device_id = some d))).map
        (exifDataOperation sync) := by
  have hg : exifDataGetter st d = fun k =>
      ((st.exif_datas.filter (fun e => decide (e.device_id = some d))).filter
        (fun x => decide (k < ExifDataRow.id x))).take 1000 := by
    funext k
    rw [exifDataGetter, List.filter_filter]
  obtain ⟨hflat, -⟩ := paginate_bounded_run
    (st.exif_datas.filter (fun e => decide (e.device_id = some d)))
    ExifDataRow.id (hsort.filter _)
    (fun x hx => hpos x (List.mem_of_mem_filter hx)) 1000 (by omega)
    (st.exif_datas.length + 2)
    (by
      have := List.length_filter_le
        (fun e => decide (e.device_id = some d)) st.exif_datas
      omega)
  rw [paginate_exif_datas, opsOfPages_eq_map, hg, hflat]

theorem paginate_file_paths_run (sync : SyncManager) (st : Store) (d : Int)
    (hsort : st.file_paths.Pairwise (fun a b => a.id < b.id))
    (hpos : ∀ f ∈ st.file_paths, -1 < f.id) :
    paginate_file_paths sync st d =
      (st.file_paths.filter (fun f => decide (f.device_id = some d))).map
        (filePathOperation sync) := by
  have hg : filePathGetter st d = fun k =>
      (st.file_paths.filter (fun f => decide (f.device_id = some d))).filter
        (fun x => decide (k < FilePathRow.id x)) := by
    funext k
    rw [filePathGetter, List.filter_filter]
  rw [paginate_file_paths, opsOfPages_eq_map, hg, paginate,
    paginateGo_unbounded_pages
      (st.file_paths.filter (fun f => decide (f.device_id = some d)))
      FilePathRow.id (hsort.filter _) (st.file_paths.length + 2) (-1)
      (by omega)
      (filter_cursor_eq_self FilePathRow.id _ (-1)
        (fun x hx => hpos x (List.mem_of_mem_filter hx)))]
  by_cases h : st.file_paths.filter (fun f => decide (f.device_id = some d)) = []
  · simp [h]
  · rw [if_neg (by simp [h])]
    simp

theorem paginate_tags_on_objects_run (sync : SyncManager) (st : Store)
    (d : Int)
    (hsort : st.tags_on_objects.Pairwise (fun a b =>
      a.tag_id < b.tag_id ∨ (a.tag_id = b.tag_id ∧ a.object_id < b.object_id)))
    (hpos : ∀ r ∈ st.tags_on_objects, 0 ≤ r.tag_id ∧ 0 ≤ r.object_id) :
    paginate_tags_on_objects sync st d =
      (st.tags_on_objects.filter (fun r => decide (r.device_id = some d))).map
        (tagOnObjectOperation sync) := by
  have hg : tagOnObjectGetter st d = fun g i =>
      (st.tags_on_objects.filter (fun r => decide (r.device_id = some d))).filter
        (fun r => decide (g < r.tag_id) && decide (i < r.object_id)) := by
    funext g i
    rw [tagOnObjectGetter, List.filter_filter]
  have hfull : (st.tags_on_objects.filter
      (fun r => decide (r.device_id = some d))).filter
        (fun r => decide ((-1 : Int) < r.tag_id) &&
          decide ((-1 : Int) < r.object_id)) =
      st.tags_on_objects.filter (fun r => decide (r.device_id = some d)) := by
    rw [List.filter_eq_self]
    intro r hr
    obtain ⟨h1, h2⟩ := hpos r (List.mem_of_mem_filter hr)
    simp only [Bool.and_eq_true, decide_eq_true_eq]
    omega
  rw [paginate_tags_on_objects, opsOfPages_eq_map, hg, paginate_relation,
    paginateRelationGo_unbounded_pages
      (st.tags_on_objects.filter (fun r => decide (r.device_id = some d)))
      TagOnObjectRow.tag_id TagOnObjectRow.object_id (hsort.filter _)
      (st.tags_on_objects.length + 2) (-1) (-1) (by omega) hfull]
  by_cases h : st.tags_on_objects.filter
      (fun r => decide (r.device_id = some d)) = []
  · simp [h]
  · rw [if_neg (by simp [h])]
    simp

theorem paginate_labels_on_objects_run (sync : SyncManager) (st : Store)
    (d : Int)
    (hsort : st.labels_on_objects.Pairwise (fun a b =>
      a.label_id < b.label_id ∨
        (a.label_id = b.label_id ∧ a.object_id < b.object_id)))
    (hpos : ∀ r ∈ st.labels_on_objects, 0 ≤ r.label_id ∧ 0 ≤ r.object_id) :
    paginate_labels_on_objects sync st d =
      (st.labels_on_objects.filter (fun r => decide (r.device_id = some d))).map
        (labelOnObjectOperation sync) := by
  have hg : labelOnObjectGetter st d = fun g i =>
      (st.labels_on_objects.filter (fun r => decide (r.device_id = some d))).filter
        (fun r => decide (g < r.label_id) && decide (i < r.object_id)) := by
    funext g i
    rw [labelOnObjectGetter, List.filter_filter]
  have hfull : (st.labels_on_objects.filter
      (fun r => decide (r.device_id = some d))).filter
        (fun r => decide ((-1 : Int) < r.label_id) &&
          decide ((-1 : Int) < r.object_id)) =
      st.labels_on_objects.filter (fun r => decide (r.device_id = some d)) := by
    rw [List.filter_eq_self]
    intro r hr
    obtain ⟨h1, h2⟩ := hpos r (List.mem_of_mem_filter hr)
    simp only [Bool.and_eq_true, decide_eq_true_eq]
    omega
  rw [paginate_labels_on_objects, opsOfPages_eq_map, hg, paginate_relation,
    paginateRelationGo_unbounded_pages
      (st.labels_on_objects.filter (fun r => decide (r.device_id = some d)))
      LabelOnObjectRow.label_id LabelOnObjectRow.object_id (hsort.filter _)
      (st.labels_on_objects.length + 2) (-1) (-1) (by omega) hfull]
  by_cases h : st.labels_on_objects.filter
      (fun r => decide (r.device_id = some d)) = []
  · simp [h]
  · rw [if_neg (by simp [h])]
    simp

/-- Every operation persisted by a pagination run is the image of some row
under the converter. -/
theorem mem_opsOfPages {T : Type} (pages : List (List T))
    (convert : T → CRDTOperation) (op : CRDTOperation)
    (h : op ∈ opsOfPages pages convert) : ∃ r, op = convert r := by
  rw [opsOfPages_eq_map] at h
  obtain ⟨r, -, hr⟩ := List.mem_map.mp h
  exact ⟨r, hr.symm⟩

/-- Every regenerated operation is tagged with the local device identity:
each converter builds its record through the facade of the sync manager. -/
theorem backfillNewOps_device (sync : SyncManager) (st : Store)
    (d : DeviceRow) :
    ∀ op ∈ backfillNewOps sync st d,
      op.device_pub_id = sync.device_pub_id := by
  have hstats : ∀ op ∈ backfill_storage_statistics sync st d.id,
      op.device_pub_id = sync.device_pub_id := by
    intro op hop
    rw [backfill_storage_statistics] at hop
    rcases hfind : st.storage_statistics.find?
        (fun s => decide (s.device_id = some d.id)) with _ | s
    · rw [hfind] at hop; simp at hop
    · rw [hfind] at hop
      rw [List.mem_singleton] at hop
      subst hop
      rfl
  intro op hop
  simp only [backfillNewOps, backfill_device, List.mem_append, or_assoc,
    List.mem_singleton] at hop
  rcases hop with h | h | h | h | h | h | h | h | h | h
  · subst h; rfl
  · exact hstats op h
  · obtain ⟨r, rfl⟩ := mem_opsOfPages _ _ op h; rfl
  · obtain ⟨r, rfl⟩ := mem_opsOfPages _ _ op h; rfl
  · obtain ⟨r, rfl⟩ := mem_opsOfPages _ _ op h; rfl
  · obtain ⟨r, rfl⟩ := mem_opsOfPages _ _ op h; rfl
  · obtain ⟨r, rfl⟩ := mem_opsOfPages _ _ op h; rfl
  · obtain ⟨r, rfl⟩ := mem_opsOfPages _ _ op h; rfl
  · obtain ⟨r, rfl⟩ := mem_opsOfPages _ _ op h; rfl
  · obtain ⟨r, rfl⟩ := mem_opsOfPages _ _ op h; rfl

/-! ### Claims C7, C8 -/

/-- C7: the wipe step of a backfill run removes exactly the stored
operation records whose device identity equals the local device identity
(a record survives the wipe precisely when it belongs to another device),
and over the entire successful run the records of every other device are
left unchanged. -/
theorem C7_wipe_local_device_only (sync : SyncManager) (st : Store)
    (log newLog : List CRDTOperation)
    (hrun : backfill_operations sync st log = .ok newLog) :
    (∀ op, op ∈ wipeDeviceOperations log sync.device_pub_id ↔
      (op ∈ log ∧ op.device_pub_id ≠ sync.device_pub_id)) ∧
    newLog.filter (fun op => decide (op.device_pub_id ≠ sync.device_pub_id)) =
      log.filter (fun op => decide (op.device_pub_id ≠ sync.device_pub_id)) := by
  constructor
  · intro op
    rw [wipeDeviceOperations, List.mem_filter]
    simp
  · rw [backfill_operations] at hrun
    rcases hfind : st.devices.find?
        (fun dv => decide (dv.pub_id = sync.device_pub_id)) with _ | d
    · rw [hfind] at hrun; exact absurd hrun (by simp)
    · rw [hfind] at hrun
      rw [Except.ok.injEq] at hrun
      subst hrun
      rw [List.filter_append]
      have h1 : (wipeDeviceOperations log sync.device_pub_id).filter
          (fun op => decide (op.device_pub_id ≠ sync.device_pub_id)) =
          wipeDeviceOperations log sync.device_pub_id := by
        rw [wipeDeviceOperations, List.filter_filter]
        refine List.filter_congr (fun op _ => ?_)
        by_cases h : op.device_pub_id = sync.device_pub_id <;> simp [h]
      have h2 : (backfillNewOps sync st d).filter
          (fun op => decide (op.device_pub_id ≠ sync.device_pub_id)) = [] := by
        rw [List.filter_eq_nil_iff]
        intro op hop
        have := backfillNewOps_device sync st d op hop
        simp [this]
      rw [h1, h2, List.append_nil, wipeDeviceOperations]

/-- Witness for C7: a successful backfill over the witness store with a
stored log holding one foreign-device record and one stale local record;
the foreign record survives untouched. -/
theorem C7_wipe_local_device_only_witness :
    backfill_operations ⟨10⟩ witnessStore
        [⟨7, .sharedCreate, .tag 9, []⟩, ⟨10, .sharedCreate, .tag 8, []⟩] =
      .ok (runBackfill ⟨10⟩ witnessStore
        [⟨7, .sharedCreate, .tag 9, []⟩, ⟨10, .sharedCreate, .tag 8, []⟩]) ∧
    ((∀ op, op ∈ wipeDeviceOperations
        [⟨7, .sharedCreate, .tag 9, []⟩, ⟨10, .sharedCreate, .tag 8, []⟩]
        (SyncManager.device_pub_id ⟨10⟩) ↔
      (op ∈ [⟨7, .sharedCreate, .tag 9, []⟩, ⟨10, .sharedCreate, .tag 8, []⟩] ∧
        op.device_pub_id ≠ SyncManager.device_pub_id ⟨10⟩)) ∧
    (runBackfill ⟨10⟩ witnessStore
        [⟨7, .sharedCreate, .tag 9, []⟩, ⟨10, .sharedCreate, .tag 8, []⟩]).filter
      (fun op => decide (op.device_pub_id ≠ SyncManager.device_pub_id ⟨10⟩)) =
      ([⟨7, .sharedCreate, .tag 9, []⟩, ⟨10, .sharedCreate, .tag 8, []⟩] :
        List CRDTOperation).filter
        (fun op => decide (op.device_pub_id ≠ SyncManager.device_pub_id ⟨10⟩))) :=
  ⟨rfl, C7_wipe_local_device_only ⟨10⟩ witnessStore _ _ rfl⟩

/-- C8: when no device row carries the sync manager device identity, the
backfill aborts with the device-not-found error before the wipe and before
any wave, and the stored operation log, the stale local records included,
is unchanged. -/
theorem C8_device_not_found_aborts (sync : SyncManager) (st : Store)
    (log : List CRDTOperation)
    (h : ∀ dv ∈ st.devices, dv.pub_id ≠ sync.device_pub_id) :
    backfill_operations sync st log =
      .error (.DeviceNotFound sync.device_pub_id) ∧
    runBackfill sync st log = log := by
  have hfind : st.devices.find?
      (fun dv => decide (dv.pub_id = sync.device_pub_id)) = none := by
    rw [List.find?_eq_none]
    intro dv hdv
    simp [h dv hdv]
  constructor
  · rw [backfill_operations, hfind]
  · rw [runBackfill, backfill_operations, hfind]

/-- Witness for C8: a store with no device rows leaves a one-record log
untouched and reports device-not-found. -/
theorem C8_device_not_found_aborts_witness :
    (∀ dv ∈ (Store.mk [] [] [] [] [] [] [] [] [] []).devices,
      dv.pub_id ≠ SyncManager.device_pub_id ⟨10⟩) ∧
    (backfill_operations ⟨10⟩ (Store.mk [] [] [] [] [] [] [] [] [] [])
        [⟨10, .sharedCreate, .tag 8, []⟩] =
      .error (.DeviceNotFound (SyncManager.device_pub_id ⟨10⟩)) ∧
    runBackfill ⟨10⟩ (Store.mk [] [] [] [] [] [] [] [] [] [])
        [⟨10, .sharedCreate, .tag 8, []⟩] =
      [⟨10, .sharedCreate, .tag 8, []⟩]) :=
  ⟨by simp, C8_device_not_found_aborts ⟨10⟩ _ _ (by simp)⟩

/-! ### Claims C2, C3 -/

/-- C3: over a table of rows with distinct ascending local keys all above
the initial sentinel cursor, for any page size of at least one, the cursor
paginator driven by the canonical fetch (the rows with key strictly above
the cursor, in ascending key order, truncated to the page size) visits all
rows exactly once, in ascending local-key order, across the row count
divided by the page size rounded up nonempty pages: the concatenation of
the fetched pages is exactly the table, so no row is skipped or
duplicated. -/
theorem C3_cursor_paginator_visits_all_once {T : Type} (L : List T)
    (idf : T → Int) (hsort : L.Pairwise (fun a b => idf a < idf b))
    (hpos : ∀ x ∈ L, -1 < idf x) (ps : Nat) (hps : 1 ≤ ps) (fuel : Nat)
    (hf : L.length + 2 ≤ fuel) :
    (paginate (fun k => (L.filter (fun x => decide (k < idf x))).take ps)
        idf fuel).flatten = L ∧
    (paginate (fun k => (L.filter (fun x => decide (k < idf x))).take ps)
        idf fuel).countP (fun p => !p.isEmpty) = (L.length + ps - 1) / ps :=
  paginate_bounded_run L idf hsort hpos ps hps fuel hf

/-- Witness for C3 at the table of keys one, two, three with page size
two: two nonempty pages and every row visited once in order. -/
theorem C3_cursor_paginator_visits_all_once_witness :
    ([1, 2, 3] : List Int).Pairwise (fun a b => a < b) ∧
    (∀ x ∈ ([1, 2, 3] : List Int), -1 < x) ∧
    (1 : Nat) ≤ 2 ∧ ([1, 2, 3] : List Int).length + 2 ≤ 5 ∧
    ((paginate
        (fun k => (([1, 2, 3] : List Int).filter
          (fun x => decide (k < x))).take 2) (fun x => x) 5).flatten =
        [1, 2, 3] ∧
      (paginate
        (fun k => (([1, 2, 3] : List Int).filter
          (fun x => decide (k < x))).take 2) (fun x => x) 5).countP
            (fun p => !p.isEmpty) =
        (([1, 2, 3] : List Int).length + 2 - 1) / 2) :=
  ⟨by decide, by decide, by decide, by decide,
    C3_cursor_paginator_visits_all_once [1, 2, 3] (fun x => x) (by decide)
      (by decide) 2 (by decide) 5 (by decide)⟩

/-- C2: over any state of a two-key relation table (rows carrying a group
key and an item key, stored in ascending lexicographic order with
nonnegative keys), the relation paginator driven by the call-site fetch
visits every relation row exactly once (the concatenation of the fetched
pages is exactly the table, so no row is skipped and none is converted
twice even when a group key repeats across pages), and each fetch returns
only rows whose key pair is lexicographically greater than the cursor
pair, ordered ascending by group key then item key. -/
theorem C2_relation_paginator_visits_all_once {T : Type} (L : List T)
    (kg ki : T → Int)
    (hsort : L.Pairwise (fun a b =>
      kg a < kg b ∨ (kg a = kg b ∧ ki a < ki b)))
    (hpos : ∀ r ∈ L, 0 ≤ kg r ∧ 0 ≤ ki r) (fuel : Nat) (hf : 2 ≤ fuel) :
    (paginate_relation
        (fun g i => L.filter (fun r => decide (g < kg r) && decide (i < ki r)))
        (fun r => (kg r, ki r)) fuel).flatten = L ∧
    (∀ g i : Int,
      ∀ r ∈ L.filter (fun r => decide (g < kg r) && decide (i < ki r)),
        g < kg r ∨ (g = kg r ∧ i < ki r)) ∧
    (∀ g i : Int,
      (L.filter (fun r => decide (g < kg r) && decide (i < ki r))).Pairwise
        (fun a b => kg a < kg b ∨ (kg a = kg b ∧ ki a < ki b))) := by
  refine ⟨?_, fun g i r hr => ?_, fun g i => hsort.filter _⟩
  · have hfull : L.filter
        (fun r => decide ((-1 : Int) < kg r) &&
          decide ((-1 : Int) < ki r)) = L := by
      rw [List.filter_eq_self]
      intro r hr
      obtain ⟨h1, h2⟩ := hpos r hr
      simp only [Bool.and_eq_true, decide_eq_true_eq]
      omega
    rw [paginate_relation,
      paginateRelationGo_unbounded_pages L kg ki hsort fuel (-1) (-1) hf hfull]
    by_cases h : L = []
    · simp [h]
    · rw [if_neg (by simp [h])]
      simp
  · have := List.of_mem_filter hr
    simp only [Bool.and_eq_true, decide_eq_true_eq] at this
    exact Or.inl this.1

/-- Witness for C2 at a two-row relation table whose group keys are one
and two. -/
theorem C2_relation_paginator_visits_all_once_witness :
    ([((1 : Int), (5 : Int)), (2, 3)]).Pairwise (fun a b =>
      a.1 < b.1 ∨ (a.1 = b.1 ∧ a.2 < b.2)) ∧
    (∀ r ∈ [((1 : Int), (5 : Int)), (2, 3)], 0 ≤ r.1 ∧ 0 ≤ r.2) ∧
    (2 : Nat) ≤ 4 ∧
    ((paginate_relation
        (fun g i => ([((1 : Int), (5 : Int)), (2, 3)]).filter
          (fun r => decide (g < r.1) && decide (i < r.2)))
        (fun r => (r.1, r.2)) 4).flatten = [((1 : Int), (5 : Int)), (2, 3)] ∧
      (∀ g i : Int,
        ∀ r ∈ ([((1 : Int), (5 : Int)), (2, 3)]).filter
          (fun r => decide (g < r.1) && decide (i < r.2)),
          g < r.1 ∨ (g = r.1 ∧ i < r.2)) ∧
      (∀ g i : Int,
        (([((1 : Int), (5 : Int)), (2, 3)]).filter
          (fun r => decide (g < r.1) && decide (i < r.2))).Pairwise
          (fun a b => a.1 < b.1 ∨ (a.1 = b.1 ∧ a.2 < b.2)))) :=
  ⟨by decide, by decide, by decide,
    C2_relation_paginator_visits_all_once [((1 : Int), (5 : Int)), (2, 3)]
      Prod.fst Prod.snd (by decide) (by decide) 4 (by decide)⟩

/-! ### Claim C4: the 2500-row file-path scenario -/

theorem filePathTable2500_sorted :
    filePathTable2500.Pairwise (fun a b => a.id < b.id) := by
  rw [filePathTable2500]
  refine List.Pairwise.map _ (fun a b hab => ?_) (List.pairwise_lt_range 2500)
  simp only [filePathRowOfId]
  omega

theorem filePathTable2500_pos : ∀ f ∈ filePathTable2500, -1 < f.id := by
  intro f hf
  obtain ⟨n, -, rfl⟩ := List.mem_map.mp hf
  simp only [filePathRowOfId]
  omega

theorem filePathTable2500_length : filePathTable2500.length = 2500 := by
  rw [filePathTable2500, List.length_map, List.length_range]

theorem filePathTable2500_ne_nil : filePathTable2500 ≠ [] := by
  intro h
  have hlen := filePathTable2500_length
  rw [h] at hlen
  simp at hlen

theorem filePathTable2500_getLast :
    filePathTable2500.getLast? = some (filePathRowOfId 2500) := by
  rw [filePathTable2500, show (2500 : Nat) = 2499 + 1 from rfl,
    List.range_succ, List.map_append]
  simp

/-- The device filter is vacuous over the 2500-row table: every row is
owned by the local device. -/
theorem filePathGetter2500_eq : filePathGetter store2500 1 = fun k =>
    filePathTable2500.filter (fun x => decide (k < FilePathRow.id x)) := by
  funext k
  have hfp : store2500.file_paths = filePathTable2500 := rfl
  rw [filePathGetter, hfp]
  refine List.filter_congr (fun x hx => ?_)
  obtain ⟨n, -, rfl⟩ := List.mem_map.mp hx
  simp [filePathRowOfId]

/-- The file-path pagination over 2500 rows makes exactly two fetches: a
single page holding all 2500 rows, then the empty terminating page. -/
theorem filePathPages2500_eq :
    filePathPages2500 = [filePathTable2500, []] := by
  rw [filePathPages2500, filePathGetter2500_eq, paginate,
    paginateGo_unbounded_pages filePathTable2500 FilePathRow.id
      filePathTable2500_sorted (store2500.file_paths.length + 2) (-1)
      (by omega)
      (filter_cursor_eq_self FilePathRow.id filePathTable2500 (-1)
        filePathTable2500_pos)]
  rw [if_neg (by simp [filePathTable2500_ne_nil])]

/-- C4 (counterexample to the claimed shape): over the 2500-row store the
file-path pagination does not perform three fetches of 1000, 1000 and 500
rows — the fetch of paginate_file_paths carries no page bound, so the run
is two fetches of 2500 and 0 rows. -/
theorem C4_filepath_2500_counterexample :
    filePathPages2500.length ≠ 3 ∧
    filePathPages2500.map List.length ≠ [1000, 1000, 500] := by
  rw [filePathPages2500_eq]
  constructor
  · simp
  · intro h
    simp only [List.map_cons, List.map_nil, List.cons.injEq] at h
    have := filePathTable2500_length
    omega

/-- C4 (amended): for the store of exactly 2500 file-path rows, the
file-path backfill performs exactly two fetch calls returning 2500 and 0
rows (the file-path query has no page bound), produces exactly 2500
create operations, and the final fetch returns the empty page only once
the key of row 2500 is the cursor: the cursor fed to the last fetch is the
key of row 2500 (the last row of the single full page), the fetch at that
cursor is empty, and the fetch at cursor 2499 is not. -/
theorem C4_filepath_2500_amended :
    filePathPages2500 = [filePathTable2500, []] ∧
    filePathPages2500.map List.length = [2500, 0] ∧
    (paginate_file_paths ⟨10⟩ store2500 1).length = 2500 ∧
    filePathTable2500.getLast? = some (filePathRowOfId 2500) ∧
    (filePathRowOfId 2500).id = 2500 ∧
    filePathGetter store2500 1 2500 = [] ∧
    filePathGetter store2500 1 2499 ≠ [] := by
  refine ⟨filePathPages2500_eq, ?_, ?_, filePathTable2500_getLast, rfl, ?_, ?_⟩
  · rw [filePathPages2500_eq]
    simp [filePathTable2500_length]
  · rw [paginate_file_paths_run ⟨10⟩ store2500 1 filePathTable2500_sorted
      filePathTable2500_pos, List.length_map]
    have hfp : store2500.file_paths = filePathTable2500 := rfl
    rw [hfp, List.filter_eq_self.mpr, filePathTable2500_length]
    intro x hx
    obtain ⟨n, -, rfl⟩ := List.mem_map.mp hx
    simp [filePathRowOfId]
  · rw [filePathGetter2500_eq, List.filter_eq_nil_iff]
    intro f hf
    obtain ⟨n, hn, rfl⟩ := List.mem_map.mp hf
    rw [List.mem_range] at hn
    simp only [filePathRowOfId, decide_eq_true_eq]
    omega
  · have hmem : filePathRowOfId 2500 ∈ filePathGetter store2500 1 2499 := by
      rw [filePathGetter2500_eq]
      refine List.mem_filter.mpr ⟨?_, by simp [filePathRowOfId]⟩
      rw [filePathTable2500]
      exact List.mem_map.mpr ⟨2499, List.mem_range.mpr (by omega), rfl⟩
    exact List.ne_nil_of_mem hmem

/-! ### Claim C1: completeness of the regenerated log -/

/-- Converted rows keyed injectively into targets: when the key column is
duplicate-free, exactly one operation of the batch carries the target
built from a member row. -/
theorem countP_map_target_key {R β : Type} [DecidableEq β] (rows : List R)
    (conv : R → CRDTOperation) (key : R → β) (mk : β → SyncId)
    (hconv : ∀ r, (conv r).target = mk (key r))
    (hinj : ∀ x y : β, mk x = mk y → x = y)
    (hnd : (rows.map key).Nodup) (a : R) (ha : a ∈ rows) :
    (rows.map conv).countP (fun op => decide (op.target = mk (key a))) = 1 := by
  rw [List.countP_map, ← countP_key_nodup key rows hnd a ha]
  refine countP_congr_bool rows _ _ (fun r _ => ?_)
  simp only [Function.comp_apply, hconv r]
  rw [decide_eq_decide]
  exact ⟨fun h => hinj _ _ h, fun h => h ▸ rfl⟩

/-- The storage-statistics step contributes no operation counted against a
target that is not a storage-statistics identity. -/
theorem backfill_storage_statistics_countP_zero (sync : SyncManager)
    (st : Store) (did : Int) (tgt : SyncId)
    (h : ∀ s : StorageStatisticsRow,
      SyncId.storageStatistics s.pub_id ≠ tgt) :
    (backfill_storage_statistics sync st did).countP
      (fun op => decide (op.target = tgt)) = 0 := by
  rw [backfill_storage_statistics]
  rcases hfind : st.storage_statistics.find?
      (fun s => decide (s.device_id = some did)) with _ | s
  · rw [hfind]
    rfl
  · rw [hfind]
    simp only [List.countP_cons, List.countP_nil, Nat.zero_add]
    rw [if_neg (by simp [storageStatisticsOperation_target, h s])]

/-- C1 (amended): after a successful backfill run, the regenerated log
(the operations of the local device in the new stored log) contains
exactly one create operation per backfilled row: one for the local device
row itself, one per tag and per label (these tables are unfiltered), and
one per location, object, EXIF row, file path, tag-membership and
label-membership row owned by the local device.  The amendment forced by
the counterexample: rows attributed to other devices, and device rows
other than the local one, are not scoped by the run, so the original
universal claim over all rows of the synchronizable tables fails. -/
theorem C1_backfill_completeness_amended (sync : SyncManager) (st : Store)
    (log newLog : List CRDTOperation) (d : DeviceRow) (hwf : st.WF)
    (hd : st.devices.find?
      (fun dv => decide (dv.pub_id = sync.device_pub_id)) = some d)
    (hrun : backfill_operations sync st log = .ok newLog) :
    ((localOps sync newLog).countP
      (fun op => decide (op.target = SyncId.device d.pub_id)) = 1) ∧
    (∀ t ∈ st.tags, (localOps sync newLog).countP
      (fun op => decide (op.target = SyncId.tag t.pub_id)) = 1) ∧
    (∀ lb ∈ st.labels, (localOps sync newLog).countP
      (fun op => decide (op.target = SyncId.label lb.name)) = 1) ∧
    (∀ lc ∈ st.locations, lc.device_id = some d.id →
      (localOps sync newLog).countP
        (fun op => decide (op.target = SyncId.location lc.pub_id)) = 1) ∧
    (∀ ob ∈ st.objects, ob.device_id = some d.id →
      (localOps sync newLog).countP
        (fun op => decide (op.target = SyncId.object ob.pub_id)) = 1) ∧
    (∀ ex ∈ st.exif_datas, ex.device_id = some d.id →
      (localOps sync newLog).countP
        (fun op => decide (op.target = SyncId.exifData ex.object_pub_id)) = 1) ∧
    (∀ fp ∈ st.file_paths, fp.device_id = some d.id →
      (localOps sync newLog).countP
        (fun op => decide (op.target = SyncId.filePath fp.pub_id)) = 1) ∧
    (∀ re ∈ st.tags_on_objects, re.device_id = some d.id →
      (localOps sync newLog).countP
        (fun op => decide (op.target =
          SyncId.tagOnObject re.tag_pub_id re.object_pub_id)) = 1) ∧
    (∀ re ∈ st.labels_on_objects, re.device_id = some d.id →
      (localOps sync newLog).countP
        (fun op => decide (op.target =
          SyncId.labelOnObject re.label_name re.object_pub_id)) = 1) := by
  obtain ⟨hts, htp, htn, hlbs, hlbp, hlbn, hlcs, hlcp, hlcn, hobs, hobp, hobn,
    hexs, hexp, hexn, hfps, hfpp, hfpn, htods, htodp, htodn, hlods, hlodp,
    hlodn⟩ := hwf
  rw [backfill_operations, hd, Except.ok.injEq] at hrun
  subst hrun
  have hsplit : localOps sync (wipeDeviceOperations log sync.device_pub_id ++
      backfillNewOps sync st d) = backfillNewOps sync st d := by
    rw [localOps, List.filter_append]
    have hw0 : (wipeDeviceOperations log sync.device_pub_id).filter
        (fun op => decide (op.device_pub_id = sync.device_pub_id)) = [] := by
      rw [wipeDeviceOperations, List.filter_filter, List.filter_eq_nil_iff]
      intro op _
      by_cases h : op.device_pub_id = sync.device_pub_id <;> simp [h]
    have hn1 : (backfillNewOps sync st d).filter
        (fun op => decide (op.device_pub_id = sync.device_pub_id)) =
        backfillNewOps sync st d :=
      List.filter_eq_self.mpr
        (fun op hop => by simp [backfillNewOps_device sync st d op hop])
    rw [hw0, hn1, List.nil_append]
  rw [hsplit, backfillNewOps, backfill_device,
    paginate_tags_run sync st hts htp,
    paginate_labels_run sync st hlbs hlbp,
    paginate_locations_run sync st d.id hlcs hlcp,
    paginate_objects_run sync st d.id hobs hobp,
    paginate_exif_datas_run sync st d.id hexs hexp,
    paginate_file_paths_run sync st d.id hfps hfpp,
    paginate_tags_on_objects_run sync st d.id htods htodp,
    paginate_labels_on_objects_run sync st d.id hlods hlodp]
  refine ⟨?_, fun t ht => ?_, fun lb hlb => ?_, fun lc hlc hlcd => ?_,
    fun ob hob hobd => ?_, fun ex hex hexd => ?_, fun fp hfp2 hfpd => ?_,
    fun re hre hred => ?_, fun re hre hred => ?_⟩
  · simp only [List.countP_append]
    rw [backfill_storage_statistics_countP_zero sync st d.id _
        (fun s => by simp),
      countP_target_map_zero _ _ _ (fun r _ => by
        rw [tagOperation_target]; simp),
      countP_target_map_zero _ _ _ (fun r _ => by
        rw [locationOperation_target]; simp),
      countP_target_map_zero _ _ _ (fun r _ => by
        rw [objectOperation_target]; simp),
      countP_target_map_zero _ _ _ (fun r _ => by
        rw [labelOperation_target]; simp),
      countP_target_map_zero _ _ _ (fun r _ => by
        rw [exifDataOperation_target]; simp),
      countP_target_map_zero _ _ _ (fun r _ => by
        rw [filePathOperation_target]; simp),
      countP_target_map_zero _ _ _ (fun r _ => by
        rw [tagOnObjectOperation_target]; simp),
      countP_target_map_zero _ _ _ (fun r _ => by
        rw [labelOnObjectOperation_target]; simp)]
    simp [List.countP_cons, deviceOperation_target]
  · simp only [List.countP_append]
    rw [backfill_storage_statistics_countP_zero sync st d.id _
        (fun s => by simp),
      countP_map_target_key st.tags (tagOperation sync) TagRow.pub_id
        SyncId.tag (fun r => rfl) (fun x y h => SyncId.tag.inj h) htn t ht,
      countP_target_map_zero _ _ _ (fun r _ => by
        rw [locationOperation_target]; simp),
      countP_target_map_zero _ _ _ (fun r _ => by
        rw [objectOperation_target]; simp),
      countP_target_map_zero _ _ _ (fun r _ => by
        rw [labelOperation_target]; simp),
      countP_target_map_zero _ _ _ (fun r _ => by
        rw [exifDataOperation_target]; simp),
      countP_target_map_zero _ _ _ (fun r _ => by
        rw [filePathOperation_target]; simp),
      countP_target_map_zero _ _ _ (fun r _ => by
        rw [tagOnObjectOperation_target]; simp),
      countP_target_map_zero _ _ _ (fun r _ => by
        rw [labelOnObjectOperation_target]; simp)]
    simp [List.countP_cons, deviceOperation_target]
  · simp only [List.countP_append]
    rw [backfill_storage_statistics_countP_zero sync st d.id _
        (fun s => by simp),
      countP_map_target_key st.labels (labelOperation sync) LabelRow.name
        SyncId.label (fun r => rfl) (fun x y h => SyncId.label.inj h) hlbn
        lb hlb,
      countP_target_map_zero _ _ _ (fun r _ => by
        rw [tagOperation_target]; simp),
      countP_target_map_zero _ _ _ (fun r _ => by
        rw [locationOperation_target]; simp),
      countP_target_map_zero _ _ _ (fun r _ => by
        rw [objectOperation_target]; simp),
      countP_target_map_zero _ _ _ (fun r _ => by
        rw [exifDataOperation_target]; simp),
      countP_target_map_zero _ _ _ (fun r _ => by
        rw [filePathOperation_target]; simp),
      countP_target_map_zero _ _ _ (fun r _ => by
        rw [tagOnObjectOperation_target]; simp),
      countP_target_map_zero _ _ _ (fun r _ => by
        rw [labelOnObjectOperation_target]; simp)]
    simp [List.countP_cons, deviceOperation_target]
  · simp only [List.countP_append]
    rw [backfill_storage_statistics_countP_zero sync st d.id _
        (fun s => by simp),
      countP_map_target_key
        (st.locations.filter (fun l => decide (l.device_id = some d.id)))
        (locationOperation sync) LocationRow.pub_id SyncId.location
        (fun r => rfl) (fun x y h => SyncId.location.inj h)
        (List.Nodup.sublist
          (List.Sublist.map _ (List.filter_sublist _)) hlcn)
        lc (List.mem_filter.mpr ⟨hlc, by simp [hlcd]⟩),
      countP_target_map_zero _ _ _ (fun r _ => by
        rw [tagOperation_target]; simp),
      countP_target_map_zero _ _ _ (fun r _ => by
        rw [objectOperation_target]; simp),
      countP_target_map_zero _ _ _ (fun r _ => by
        rw [labelOperation_target]; simp),
      countP_target_map_zero _ _ _ (fun r _ => by
        rw [exifDataOperation_target]; simp),
      countP_target_map_zero _ _ _ (fun r _ => by
        rw [filePathOperation_target]; simp),
      countP_target_map_zero _ _ _ (fun r _ => by
        rw [tagOnObjectOperation_target]; simp),
      countP_target_map_zero _ _ _ (fun r _ => by
        rw [labelOnObjectOperation_target]; simp)]
    simp [List.countP_cons, deviceOperation_target]
  · simp only [List.countP_append]
    rw [backfill_storage_statistics_countP_zero sync st d.id _
        (fun s => by simp),
      countP_map_target_key
        (st.objects.filter (fun o => decide (o.device_id = some d.id)))
        (objectOperation sync) ObjectRow.pub_id SyncId.object
        (fun r => rfl) (fun x y h => SyncId.object.inj h)
        (List.Nodup.sublist
          (List.Sublist.map _ (List.filter_sublist _)) hobn)
        ob (List.mem_filter.mpr ⟨hob, by simp [hobd]⟩),
      countP_target_map_zero _ _ _ (fun r _ => by
        rw [tagOperation_target]; simp),
      countP_target_map_zero _ _ _ (fun r _ => by
        rw [locationOperation_target]; simp),
      countP_target_map_zero _ _ _ (fun r _ => by
        rw [labelOperation_target]; simp),
      countP_target_map_zero _ _ _ (fun r _ => by
        rw [exifDataOperation_target]; simp),
      countP_target_map_zero _ _ _ (fun r _ => by
        rw [filePathOperation_target]; simp),
      countP_target_map_zero _ _ _ (fun r _ => by
        rw [tagOnObjectOperation_target]; simp),
      countP_target_map_zero _ _ _ (fun r _ => by
        rw [labelOnObjectOperation_target]; simp)]
    simp [List.countP_cons, deviceOperation_target]
  · simp only [List.countP_append]
    rw [backfill_storage_statistics_countP_zero sync st d.id _
        (fun s => by simp),
      countP_map_target_key
        (st.exif_datas.filter (fun e => decide (e.device_id = some d.id)))
        (exifDataOperation sync) ExifDataRow.object_pub_id SyncId.exifData
        (fun r => rfl) (fun x y h => SyncId.exifData.inj h)
        (List.Nodup.sublist
          (List.Sublist.map _ (List.filter_sublist _)) hexn)
        ex (List.mem_filter.mpr ⟨hex, by simp [hexd]⟩),
      countP_target_map_zero _ _ _ (fun r _ => by
        rw [tagOperation_target]; simp),
      countP_target_map_zero _ _ _ (fun r _ => by
        rw [locationOperation_target]; simp),
      countP_target_map_zero _ _ _ (fun r _ => by
        rw [objectOperation_target]; simp),
      countP_target_map_zero _ _ _ (fun r _ => by
        rw [labelOperation_target]; simp),
      countP_target_map_zero _ _ _ (fun r _ => by
        rw [filePathOperation_target]; simp),
      countP_target_map_zero _ _ _ (fun r _ => by
        rw [tagOnObjectOperation_target]; simp),
      countP_target_map_zero _ _ _ (fun r _ => by
        rw [labelOnObjectOperation_target]; simp)]
    simp [List.countP_cons, deviceOperation_target]
  · simp only [List.countP_append]
    rw [backfill_storage_statistics_countP_zero sync st d.id _
        (fun s => by simp),
      countP_map_target_key
        (st.file_paths.filter (fun f => decide (f.device_id = some d.id)))
        (filePathOperation sync) FilePathRow.pub_id SyncId.filePath
        (fun r => rfl) (fun x y h => SyncId.filePath.inj h)
        (List.Nodup.sublist
          (List.Sublist.map _ (List.filter_sublist _)) hfpn)
        fp (List.mem_filter.mpr ⟨hfp2, by simp [hfpd]⟩),
      countP_target_map_zero _ _ _ (fun r _ => by
        rw [tagOperation_target]; simp),
      countP_target_map_zero _ _ _ (fun r _ => by
        rw [locationOperation_target]; simp),
      countP_target_map_zero _ _ _ (fun r _ => by
        rw [objectOperation_target]; simp),
      countP_target_map_zero _ _ _ (fun r _ => by
        rw [labelOperation_target]; simp),
      countP_target_map_zero _ _ _ (fun r _ => by
        rw [exifDataOperation_target]; simp),
      countP_target_map_zero _ _ _ (fun r _ => by
        rw [tagOnObjectOperation_target]; simp),
      countP_target_map_zero _ _ _ (fun r _ => by
        rw [labelOnObjectOperation_target]; simp)]
    simp [List.countP_cons, deviceOperation_target]
  · simp only [List.countP_append]
    rw [backfill_storage_statistics_countP_zero sync st d.id _
        (fun s => by simp),
      countP_map_target_key
        (st.tags_on_objects.filter (fun r => decide (r.device_id = some d.id)))
        (tagOnObjectOperation sync)
        (fun r => (r.tag_pub_id, r.object_pub_id))
        (fun p => SyncId.tagOnObject p.1 p.2) (fun r => rfl)
        (fun x y h => by
          obtain ⟨h1, h2⟩ := SyncId.tagOnObject.inj h
          exact Prod.ext h1 h2)
        (List.Nodup.sublist
          (List.Sublist.map _ (List.filter_sublist _)) htodn)
        re (List.mem_filter.mpr ⟨hre, by simp [hred]⟩),
      countP_target_map_zero _ _ _ (fun r _ => by
        rw [tagOperation_target]; simp),
      countP_target_map_zero _ _ _ (fun r _ => by
        rw [locationOperation_target]; simp),
      countP_target_map_zero _ _ _ (fun r _ => by
        rw [objectOperation_target]; simp),
      countP_target_map_zero _ _ _ (fun r _ => by
        rw [labelOperation_target]; simp),
      countP_target_map_zero _ _ _ (fun r _ => by
        rw [exifDataOperation_target]; simp),
      countP_target_map_zero _ _ _ (fun r _ => by
        rw [filePathOperation_target]; simp),
      countP_target_map_zero _ _ _ (fun r _ => by
        rw [labelOnObjectOperation_target]; simp)]
    simp [List.countP_cons, deviceOperation_target]
  · simp only [List.countP_append]
    rw [backfill_storage_statistics_countP_zero sync st d.id _
        (fun s => by simp),
      countP_map_target_key
        (st.labels_on_objects.filter
          (fun r => decide (r.device_id = some d.id)))
        (labelOnObjectOperation sync)
        (fun r => (r.label_name, r.object_pub_id))
        (fun p => SyncId.labelOnObject p.1 p.2) (fun r => rfl)
        (fun x y h => by
          obtain ⟨h1, h2⟩ := SyncId.labelOnObject.inj h
          exact Prod.ext h1 h2)
        (List.Nodup.sublist
          (List.Sublist.map _ (List.filter_sublist _)) hlodn)
        re (List.mem_filter.mpr ⟨hre, by simp [hred]⟩),
      countP_target_map_zero _ _ _ (fun r _ => by
        rw [tagOperation_target]; simp),
      countP_target_map_zero _ _ _ (fun r _ => by
        rw [locationOperation_target]; simp),
      countP_target_map_zero _ _ _ (fun r _ => by
        rw [objectOperation_target]; simp),
      countP_target_map_zero _ _ _ (fun r _ => by
        rw [labelOperation_target]; simp),
      countP_target_map_zero _ _ _ (fun r _ => by
        rw [exifDataOperation_target]; simp),
      countP_target_map_zero _ _ _ (fun r _ => by
        rw [filePathOperation_target]; simp),
      countP_target_map_zero _ _ _ (fun r _ => by
        rw [tagOnObjectOperation_target]; simp)]
    simp [List.countP_cons, deviceOperation_target]

/-- C1 (counterexample to the original universal claim): a successful
backfill run over a store holding a second device row and a location
owned by that other device regenerates no create operation at all for
either row, although both rows live in synchronizable tables; the
completeness guarantee only covers rows attributed to the local device. -/
theorem C1_backfill_completeness_counterexample :
    ((⟨2, 20, none, none, none, none, none, none⟩ : DeviceRow) ∈
      cexStore.devices) ∧
    cexLocationRow ∈ cexStore.locations ∧
    (backfill_operations ⟨10⟩ cexStore []).isOk = true ∧
    (localOps ⟨10⟩ (runBackfill ⟨10⟩ cexStore [])).countP
      (fun op => decide (op.target = SyncId.device 20)) = 0 ∧
    (localOps ⟨10⟩ (runBackfill ⟨10⟩ cexStore [])).countP
      (fun op => decide (op.target =
        SyncId.location cexLocationRow.pub_id)) = 0 := by
  decide

/-- Witness for the amended C1 at the one-row-per-table witness store. -/
theorem C1_backfill_completeness_amended_witness :
    witnessStore.WF ∧
    witnessStore.devices.find?
      (fun dv => decide (dv.pub_id = SyncManager.device_pub_id ⟨10⟩)) =
      some ⟨1, 10, none, none, none, none, none, none⟩ ∧
    backfill_operations ⟨10⟩ witnessStore [] =
      .ok (runBackfill ⟨10⟩ witnessStore []) ∧
    (((localOps ⟨10⟩ (runBackfill ⟨10⟩ witnessStore [])).countP
      (fun op => decide (op.target = SyncId.device
        (DeviceRow.pub_id ⟨1, 10, none, none, none, none, none, none⟩))) = 1) ∧
    (∀ t ∈ witnessStore.tags,
      (localOps ⟨10⟩ (runBackfill ⟨10⟩ witnessStore [])).countP
        (fun op => decide (op.target = SyncId.tag t.pub_id)) = 1) ∧
    (∀ lb ∈ witnessStore.labels,
      (localOps ⟨10⟩ (runBackfill ⟨10⟩ witnessStore [])).countP
        (fun op => decide (op.target = SyncId.label lb.name)) = 1) ∧
    (∀ lc ∈ witnessStore.locations,
      lc.device_id = some (DeviceRow.id
        ⟨1, 10, none, none, none, none, none, none⟩) →
      (localOps ⟨10⟩ (runBackfill ⟨10⟩ witnessStore [])).countP
        (fun op => decide (op.target = SyncId.location lc.pub_id)) = 1) ∧
    (∀ ob ∈ witnessStore.objects,
      ob.device_id = some (DeviceRow.id
        ⟨1, 10, none, none, none, none, none, none⟩) →
      (localOps ⟨10⟩ (runBackfill ⟨10⟩ witnessStore [])).countP
        (fun op => decide (op.target = SyncId.object ob.pub_id)) = 1) ∧
    (∀ ex ∈ witnessStore.exif_datas,
      ex.device_id = some (DeviceRow.id
        ⟨1, 10, none, none, none, none, none, none⟩) →
      (localOps ⟨10⟩ (runBackfill ⟨10⟩ witnessStore [])).countP
        (fun op => decide (op.target =
          SyncId.exifData ex.object_pub_id)) = 1) ∧
    (∀ fp ∈ witnessStore.file_paths,
      fp.device_id = some (DeviceRow.id
        ⟨1, 10, none, none, none, none, none, none⟩) →
      (localOps ⟨10⟩ (runBackfill ⟨10⟩ witnessStore [])).countP
        (fun op => decide (op.target = SyncId.filePath fp.pub_id)) = 1) ∧
    (∀ re ∈ witnessStore.tags_on_objects,
      re.device_id = some (DeviceRow.id
        ⟨1, 10, none, none, none, none, none, none⟩) →
      (localOps ⟨10⟩ (runBackfill ⟨10⟩ witnessStore [])).countP
        (fun op => decide (op.target =
          SyncId.tagOnObject re.tag_pub_id re.object_pub_id)) = 1) ∧
    (∀ re ∈ witnessStore.labels_on_objects,
      re.device_id = some (DeviceRow.id
        ⟨1, 10, none, none, none, none, none, none⟩) →
      (localOps ⟨10⟩ (runBackfill ⟨10⟩ witnessStore [])).countP
        (fun op => decide (op.target =
          SyncId.labelOnObject re.label_name re.object_pub_id)) = 1)) :=
  ⟨by unfold Store.WF; decide, rfl, rfl,
    C1_backfill_completeness_amended ⟨10⟩ witnessStore []
      (runBackfill ⟨10⟩ witnessStore [])
      ⟨1, 10, none, none, none, none, none, none⟩
      (by unfold Store.WF; decide) rfl rfl⟩

/-! ### Claims C5, C6 -/

/-- C5: the entry set a converter produces for a row omits every absent
optional column and carries exactly one entry with the correct value for
every present one, and never contains an explicit null entry.  Stated for
the tag converter, the converter the claim is sourced from, over all four
of its optional columns; the well-formedness hypotheses say that a
present column value is never the explicit null value, which the Rust
option types enforce by construction. -/
theorem C5_optional_field_omission (sync : SyncManager) (t : TagRow)
    (hname : t.name ≠ some Value.null) (hcolor : t.color ≠ some Value.null)
    (hdc : t.date_created ≠ some Value.null)
    (hdm : t.date_modified ≠ some Value.null) :
    ((tagOperation sync t).entries.countP (fun e => decide (e.1 = "name")) =
      if t.name.isSome then 1 else 0) ∧
    (∀ v, t.name = some v → ("name", v) ∈ (tagOperation sync t).entries) ∧
    ((tagOperation sync t).entries.countP (fun e => decide (e.1 = "color")) =
      if t.color.isSome then 1 else 0) ∧
    (∀ v, t.color = some v → ("color", v) ∈ (tagOperation sync t).entries) ∧
    ((tagOperation sync t).entries.countP
      (fun e => decide (e.1 = "date_created")) =
      if t.date_created.isSome then 1 else 0) ∧
    (∀ v, t.date_created = some v →
      ("date_created", v) ∈ (tagOperation sync t).entries) ∧
    ((tagOperation sync t).entries.countP
      (fun e => decide (e.1 = "date_modified")) =
      if t.date_modified.isSome then 1 else 0) ∧
    (∀ v, t.date_modified = some v →
      ("date_modified", v) ∈ (tagOperation sync t).entries) ∧
    (∀ e ∈ (tagOperation sync t).entries, e.2 ≠ Value.null) := by
  rcases hn : t.name with _ | vn <;> rcases hc : t.color with _ | vc <;>
    rcases hd1 : t.date_created with _ | v1 <;>
    rcases hd2 : t.date_modified with _ | v2 <;>
    simp_all [tagOperation, SyncManager.shared_create, chain_optional_iter,
      option_sync_entry, List.countP_cons, List.reduceOption_cons_of_some,
      List.reduceOption_nil]

/-- Witness for C5 at a tag row with present name and creation date and
absent color and modification date. -/
theorem C5_optional_field_omission_witness :
    (c5TagRow.name ≠ some Value.null) ∧
    (c5TagRow.color ≠ some Value.null) ∧
    (c5TagRow.date_created ≠ some Value.null) ∧
    (c5TagRow.date_modified ≠ some Value.null) ∧
    (((tagOperation ⟨10⟩ c5TagRow).entries.countP
        (fun e => decide (e.1 = "name")) =
      if c5TagRow.name.isSome then 1 else 0) ∧
    (∀ v, c5TagRow.name = some v →
      ("name", v) ∈ (tagOperation ⟨10⟩ c5TagRow).entries) ∧
    ((tagOperation ⟨10⟩ c5TagRow).entries.countP
        (fun e => decide (e.1 = "color")) =
      if c5TagRow.color.isSome then 1 else 0) ∧
    (∀ v, c5TagRow.color = some v →
      ("color", v) ∈ (tagOperation ⟨10⟩ c5TagRow).entries) ∧
    ((tagOperation ⟨10⟩ c5TagRow).entries.countP
        (fun e => decide (e.1 = "date_created")) =
      if c5TagRow.date_created.isSome then 1 else 0) ∧
    (∀ v, c5TagRow.date_created = some v →
      ("date_created", v) ∈ (tagOperation ⟨10⟩ c5TagRow).entries) ∧
    ((tagOperation ⟨10⟩ c5TagRow).entries.countP
        (fun e => decide (e.1 = "date_modified")) =
      if c5TagRow.date_modified.isSome then 1 else 0) ∧
    (∀ v, c5TagRow.date_modified = some v →
      ("date_modified", v) ∈ (tagOperation ⟨10⟩ c5TagRow).entries) ∧
    (∀ e ∈ (tagOperation ⟨10⟩ c5TagRow).entries, e.2 ≠ Value.null)) :=
  ⟨by decide, by decide, by decide, by decide,
    C5_optional_field_omission ⟨10⟩ c5TagRow
      (by decide) (by decide) (by decide) (by decide)⟩

/-- C6: every label-on-object operation carries the creation-timestamp
entry unconditionally (the column is required there and fed through a
required entry), whereas a tag-on-object operation carries a
creation-timestamp entry exactly when the optional column is present. -/
theorem C6_date_created_asymmetry (sync : SyncManager)
    (lo : LabelOnObjectRow) (tob : TagOnObjectRow) :
    (("date_created", lo.date_created) ∈
      (labelOnObjectOperation sync lo).entries) ∧
    ((labelOnObjectOperation sync lo).entries.countP
      (fun e => decide (e.1 = "date_created")) = 1) ∧
    ((tagOnObjectOperation sync tob).entries.countP
      (fun e => decide (e.1 = "date_created")) =
      if tob.date_created.isSome then 1 else 0) := by
  rcases hld : lo.device with _ | p <;> rcases htd : tob.device with _ | q <;>
    rcases htc : tob.date_created with _ | v <;>
    simp_all [labelOnObjectOperation, tagOnObjectOperation,
      SyncManager.relation_create, chain_optional_iter, option_sync_entry,
      sync_entry, List.countP_cons, List.reduceOption_cons_of_some,
      List.reduceOption_nil]

/-! ### Claims C9 and C10 -/

/-- C9: deserializing the serialization of a MaybeUndefined value yields
Null when the value is Undefined and yields the value itself when it is
Null or Value; deserialization never produces the Undefined variant, so the
serialize-then-deserialize round trip is the identity exactly on Null and
Value. -/
theorem C9_maybe_undefined_roundtrip {T : Type} :
    (∀ x : MaybeUndefined T,
      MaybeUndefined.deserialize x.serialize =
        match x with
        | .undefined => .null
        | .null => .null
        | .value v => .value v) ∧
    (∀ w : Option T, MaybeUndefined.deserialize w ≠ .undefined) ∧
    MaybeUndefined.deserialize (MaybeUndefined.serialize (T := T) .undefined) ≠
      .undefined := by
  refine ⟨fun x => ?_, fun w => ?_, ?_⟩
  · cases x <;> rfl
  · cases w <;> simp [MaybeUndefined.deserialize]
  · simp [MaybeUndefined.deserialize, MaybeUndefined.serialize]

/-- C10: the Debug formatting of a Protected value is the fixed string
"[REDACTED]" and therefore identical for any two wrapped secrets of any
type: the wrapped value has no influence on the Debug output. -/
theorem C10_protected_debug_redacted {T : Type} (a b : T) :
    (Protected.new a).debugFmt = (Protected.new b).debugFmt ∧
    (Protected.new a).debugFmt = "[REDACTED]" := ⟨rfl, rfl⟩

end Spacedrive
